import Mathlib

/-!
# Microwave controller (`src/main.cpp`): shallow embedding

The sketch is a single polling loop over global variables.  The globals become
the fields of `State`; every function of the sketch becomes a function
`State → … → State`.  Each read of the environment (`digitalRead(doorPin)`,
`keypad.getKey()`, `millis()`) becomes an argument of the function that
performs it, and `Input` bundles the reads of one pass through `loop`, in
program order.

* `int` is modelled by `Int`: the counters only move between -1 and the values
  of a program (at most 4 typed digits), far from the bounds of a machine `int`.
* `unsigned long` (clock values) is modelled by `Nat` below `2^32`; clock reads
  are reduced modulo `2^32` and differences are taken modulo `2^32`.
* Peripherals: the LCD commands and the blocking `delay` calls are appended to
  the field `trace`; light, buzzer and LED ring are fields holding their
  current output.
-/

namespace Microondas

/-! ## Enumerations and records -/

/-- Appliance modes (`enum MicrowaveState`). -/
inductive MicrowaveState where
  | WAITING
  | CONFIGURING
  | COOKING
  | PAUSED
  | FINISHED
  | DOOR_OPEN
  deriving DecidableEq, Repr

/-- Steps of the configuration wizard (`enum ConfigStep`). -/
inductive ConfigStep where
  | SET_COOK_TIME
  | SET_COOL_TIME
  | SET_REPETITIONS
  | CONFIG_DONE
  deriving DecidableEq, Repr

/-- The cast `static_cast<ConfigStep>(configStep + 1)` of line 367.  The source
only evaluates it under `configStep != CONFIG_DONE`; on `CONFIG_DONE` (value 4,
no enumerator) the model keeps `CONFIG_DONE`. -/
def ConfigStep.next : ConfigStep → ConfigStep
  | .SET_COOK_TIME => .SET_COOL_TIME
  | .SET_COOL_TIME => .SET_REPETITIONS
  | .SET_REPETITIONS => .CONFIG_DONE
  | .CONFIG_DONE => .CONFIG_DONE

/-- A program slot (`struct CookingProgram`). -/
structure CookingProgram where
  label : String
  cookTime : Int
  coolTime : Int
  repetitions : Int
  deriving DecidableEq, Repr

/-- The persisted part of a slot (`struct ProgramData`). -/
structure ProgramData where
  cookTime : Int
  coolTime : Int
  repetitions : Int
  deriving DecidableEq, Repr

/-- One pixel of the LED ring, as passed to `ring.Color(r, g, b)`. -/
structure Color where
  r : Int
  g : Int
  b : Int
  deriving DecidableEq, Repr

/-- Commands sent to the LCD, blocking pauses, and the tones of the blocking
finish chime, in the order issued. -/
inductive Event where
  | lcdClear
  | lcdSetCursor (col row : Nat)
  | lcdPrint (text : String)
  | lcdPrintInt (n : Int)
  | delay (ms : Nat)
  | tone (freq : Nat)
  | noTone
  deriving DecidableEq, Repr

/-! ## Constants -/

/-- The constant `NO_KEY` of the keypad library: the null character. -/
def NO_KEY : Char := Char.ofNat 0

def numPixels : Nat := 16
def timerInterval : Nat := 1000
def HEATING_TONE : Nat := 300
def COOLING_TONE : Nat := 600
def updateInterval : Nat := 100
def tailSize : Nat := 3
def onDuration : Nat := 500
def offDuration : Nat := 250

/-- Range of `unsigned long`. -/
def ULONG : Nat := 4294967296

/-- The value returned by a `millis()` call whose raw clock reading is `raw`. -/
def millis (raw : Nat) : Nat := raw % ULONG

/-- Difference `a - b` of two `unsigned long` values. -/
def elapsed (a b : Nat) : Nat := (a % ULONG + ULONG - b % ULONG) % ULONG

/-! ## Global state -/

/-- The global variables of the sketch together with the peripheral outputs. -/
structure State where
  /-- array `CookingProgram cookingPrograms[4]` -/
  cookingPrograms : Fin 4 → CookingProgram
  /-- contents of the EEPROM, one `ProgramData` record per slot -/
  eeprom : Fin 4 → ProgramData
  currentCookTime : Int
  currentCoolTime : Int
  currentRepetitions : Int
  /-- phase: 0 = heating, 1 = cooling -/
  currentStep : Int
  lastTimerUpdate : Nat
  currentProgramIndex : Int
  currentState : MicrowaveState
  prevState : MicrowaveState
  cookTime : Int
  coolTime : Int
  repetitions : Int
  configStep : ConfigStep
  configFirstTime : Bool
  configInput : List Char
  programReady : Bool
  screenInitialized : Bool
  buzzerActive : Bool
  finishBeepDone : Bool
  beepCounter : Int
  lastBeepTime : Nat
  phaseStartTime : Nat
  phaseSoundEnabled : Bool
  /-- the `static int lastStep` of `updateBuzzer` -/
  lastStep : Int
  /-- globals `lastUpdate`, `headIndex` of the rotating pattern -/
  lastUpdate : Nat
  headIndex : Int
  /-- globals `ledsOn`, `previousMillis` of the blinking pattern -/
  ledsOn : Bool
  previousMillis : Nat
  /-- LCD commands and pauses issued so far, oldest first -/
  trace : List Event
  /-- level last written to `lightPin` -/
  light : Bool
  /-- frequency currently sounding on `buzzerPin`, `none` when silent -/
  buzzer : Option Nat
  /-- pixel buffer of the ring (`setPixelColor`, `clear`) -/
  ringPixels : List Color
  /-- frame last pushed to the LEDs by `ring.show()` -/
  ringShown : List Color

/-- Environment reads of one pass through `loop`, in program order.
Door fields hold the pin level: `true` is `HIGH` (door closed), `false` is
`LOW` (door open).  Clock fields hold the raw clock reading of a `millis()`
call. -/
structure Input where
  /-- read `digitalRead(doorPin)` in `loop` (line 206) -/
  doorLoop : Bool
  /-- read `keypad.getKey()` (line 220) -/
  key : Char
  /-- read `digitalRead(doorPin)` in `handleCookingState` / `handlePausedState` -/
  doorHandler : Bool
  /-- read `millis()` in the mode handler (lines 394, 480, 523) -/
  msHandler : Nat
  /-- read `millis()` in `resetAfterCooking` when called from the cooking handler -/
  msFinish : Nat
  /-- read `millis()` in `resetAfterCooking` when called from `checkCancel` -/
  msCancel : Nat
  /-- read `digitalRead(doorPin)` in `updateInteriorLight` -/
  doorLight : Bool
  /-- read `digitalRead(doorPin)` in `updatePlatePattern` -/
  doorRing : Bool
  /-- read `millis()` in the ring pattern functions -/
  msRing : Nat
  /-- read `millis()` in `updateBuzzer` -/
  msBuzzer : Nat
  /-- read `digitalRead(doorPin)` in `updateBuzzer` -/
  doorBuzzer : Bool

/-! ## Trace helper -/

/-- Append events to the trace. -/
def State.emit (s : State) (es : List Event) : State :=
  { s with trace := s.trace ++ es }

/-! ## EEPROM and setup -/

/-- Lines 148-157. -/
def saveToEEPROM (s : State) : State :=
  { s with eeprom := fun i =>
      { cookTime := (s.cookingPrograms i).cookTime,
        coolTime := (s.cookingPrograms i).coolTime,
        repetitions := (s.cookingPrograms i).repetitions } }

/-- The four fixed labels (lines 170-175). -/
def labels : Fin 4 → String
  | 0 => "Calentar        "
  | 1 => "Descongelar     "
  | 2 => "Recalentar      "
  | 3 => "Personalizado   "

/-- Lines 160-166. -/
def saveDefaultProgramsToEEPROM (s : State) : State :=
  let progs : Fin 4 → CookingProgram := fun i =>
    match i with
    | 0 => { label := "Calentar        ", cookTime := 30, coolTime := 0, repetitions := 1 }
    | 1 => { label := "Descongelar     ", cookTime := 20, coolTime := 10, repetitions := 5 }
    | 2 => { label := "Recalentar      ", cookTime := 15, coolTime := 3, repetitions := 3 }
    | 3 => { label := "Personalizado   ", cookTime := s.cookTime, coolTime := s.coolTime,
             repetitions := s.repetitions }
  saveToEEPROM { s with cookingPrograms := progs }

/-- Lines 169-186. -/
def loadFromEEPROM (s : State) : State :=
  { s with cookingPrograms := fun i =>
      { label := labels i,
        cookTime := (s.eeprom i).cookTime,
        coolTime := (s.eeprom i).coolTime,
        repetitions := (s.eeprom i).repetitions } }

/-- All pixels off. -/
def ringOff : List Color := List.replicate numPixels { r := 0, g := 0, b := 0 }

/-- All pixels white. -/
def ringWhite : List Color := List.replicate numPixels { r := 255, g := 255, b := 255 }

/-- The globals as initialised by their declarations (lines 101-145, 604-607,
660-661, 703). -/
def globals : State :=
  { cookingPrograms := fun _ => { label := "", cookTime := 0, coolTime := 0, repetitions := 0 },
    eeprom := fun _ => { cookTime := 0, coolTime := 0, repetitions := 0 },
    currentCookTime := 0,
    currentCoolTime := 0,
    currentRepetitions := 0,
    currentStep := 0,
    lastTimerUpdate := 0,
    currentProgramIndex := -1,
    currentState := .WAITING,
    prevState := .WAITING,
    cookTime := 0,
    coolTime := 0,
    repetitions := 1,
    configStep := .SET_COOK_TIME,
    configFirstTime := true,
    configInput := [],
    programReady := false,
    screenInitialized := false,
    buzzerActive := false,
    finishBeepDone := false,
    beepCounter := 0,
    lastBeepTime := 0,
    phaseStartTime := 0,
    phaseSoundEnabled := false,
    lastStep := -1,
    lastUpdate := 0,
    headIndex := 0,
    ledsOn := false,
    previousMillis := 0,
    trace := [],
    light := false,
    buzzer := none,
    ringPixels := ringOff,
    ringShown := ringOff }

/-- Lines 189-201: `ring.show()` pushes the (dark) buffer, then the default
programs are written to the EEPROM and read back. -/
def setup : State :=
  loadFromEEPROM (saveDefaultProgramsToEEPROM { globals with ringShown := globals.ringPixels })

/-! ## Utility functions of the sketch -/

/-- Lines 500-506. -/
def showInitialScreen (s : State) : State :=
  s.emit [.lcdClear, .lcdSetCursor 0 0, .lcdPrint "A:Calen B:Descon",
          .lcdSetCursor 0 1, .lcdPrint "C:Recal D:Person"]

/-- Lines 486-497. -/
def resetConfiguration (s : State) : State :=
  { s with
    cookTime := 0,
    coolTime := 0,
    repetitions := 1,
    configInput := [],
    configStep := .SET_COOK_TIME,
    configFirstTime := true,
    programReady := false,
    screenInitialized := false,
    prevState := s.currentState,
    currentState := .WAITING }

/-- Lines 514-530; `ms` is the raw reading of the `millis()` call. -/
def startCookingProgram (s : State) (programIndex cook cool reps : Int) (ms : Nat) : State :=
  { s with
    currentProgramIndex := programIndex,
    cookTime := cook,
    coolTime := cool,
    repetitions := max 1 reps,
    currentCookTime := cook,
    currentCoolTime := cool,
    currentRepetitions := max 1 reps,
    currentStep := 0,
    lastTimerUpdate := millis ms,
    prevState := s.currentState,
    currentState := .COOKING,
    trace := s.trace ++ [.lcdClear, .lcdSetCursor 0 0, .lcdPrint "   Comenzando   "],
    finishBeepDone := false }

/-- Lines 541-557; `ms` is the raw reading of the `millis()` call. -/
def resetAfterCooking (s : State) (ms : Nat) : State :=
  { s with
    cookTime := 0,
    coolTime := 0,
    repetitions := 1,
    configStep := .SET_COOK_TIME,
    configFirstTime := true,
    programReady := false,
    screenInitialized := false,
    prevState := .WAITING,
    currentState := .WAITING,
    buzzer := none,
    buzzerActive := false,
    finishBeepDone := false,
    beepCounter := 0,
    lastBeepTime := millis ms }

/-- Lines 737-747: three beeps; the buzzer is silent when the function
returns. -/
def handleFinishedBeep (s : State) : State :=
  { s with
    buzzer := none,
    trace := s.trace ++
      [.tone 2000, .delay 100, .noTone, .delay 500,
       .tone 2000, .delay 100, .noTone, .delay 500,
       .tone 2000, .delay 100, .noTone, .delay 500] }

/-- Lines 560-572. -/
def checkCancel (s : State) (key : Char) (ms : Nat) : State :=
  if key = '*' then
    if s.currentState = .CONFIGURING ∨ s.currentState = .COOKING ∨ s.currentState = .PAUSED then
      resetAfterCooking
        { s with
          trace := s.trace ++ [.lcdClear, .lcdPrint "Cancelado       ", .delay 1000],
          prevState := .WAITING,
          currentState := .WAITING,
          screenInitialized := false } ms
    else s
  else s

/-! ## Numeric entry -/

/-- Key is one of `'0'`..`'9'` (`key >= '0' && key <= '9'`, codes 48..57). -/
def isDigitKey (key : Char) : Bool := decide (48 ≤ key.toNat) && decide (key.toNat ≤ 57)

/-- Value of the leading run of decimal digits of `cs`, continuing from the
accumulator `acc`. -/
def digitsValue : List Char → Int → Int
  | [], acc => acc
  | c :: cs, acc =>
    if isDigitKey c then digitsValue cs (acc * 10 + ((c.toNat : Int) - 48)) else acc

/-- The call `configInput.toInt()` of line 337.  `String::toInt` belongs to the
Arduino core, not to the sketch: it yields the value of the leading run of
decimal digits, 0 when there is none.  The buffer only ever receives digit keys
(lines 318-321), so its value is the decimal number typed. -/
def toInt (cs : List Char) : Int := digitsValue cs 0

/-! ## Mode handlers -/

/-- Lines 260-284.  `ms` is the raw reading of the `millis()` call made by
`startCookingProgram`.  Keys `'A'`..`'D'` have codes 65..68, `'1'`..`'9'`
have codes 49..57. -/
def handleWaitingState (s : State) (key : Char) (ms : Nat) : State :=
  if key = NO_KEY then s
  else if key = '#' then
    { s with prevState := s.currentState, currentState := .CONFIGURING }
  else if h : 65 ≤ key.toNat ∧ key.toNat ≤ 68 then
    let index : Fin 4 := ⟨key.toNat - 65, by omega⟩
    startCookingProgram s (index.val : Int)
      (s.cookingPrograms index).cookTime
      (s.cookingPrograms index).coolTime
      (s.cookingPrograms index).repetitions ms
  else if 49 ≤ key.toNat ∧ key.toNat ≤ 57 then
    startCookingProgram { s with currentProgramIndex := -1 } (-1)
      ((key.toNat : Int) - 48) 0 1 ms
  else s

/-- Line 287. -/
def handleFinishedState (s : State) : State := s

/-- Lines 292-314: the first pass through a step prints its prompt and empties
the input buffer. -/
def configPrompt (s : State) : State :=
  if s.configFirstTime then
    { s with
      trace := s.trace ++ [.lcdClear] ++
        (match s.configStep with
         | .SET_COOK_TIME => [.lcdPrint "Tiemp de Cocc:  "]
         | .SET_COOL_TIME => [.lcdPrint "Tiempo standby:"]
         | .SET_REPETITIONS => [.lcdPrint "Num repeticion: "]
         | .CONFIG_DONE => [.lcdClear, .lcdPrint "Programa listo  ", .lcdSetCursor 0 1,
                            .lcdPrint "# para guardar  "]) ++
        [.lcdSetCursor 0 1],
      configInput := [],
      configFirstTime := false }
  else s

/-- Lines 348-364: the `switch` that commits `value` at the current step, into
the draft and into slot D (`cookingPrograms[3]`). -/
def commitValue (s : State) (value : Int) : State :=
  match s.configStep with
  | .SET_COOK_TIME =>
    { s with cookTime := value,
             cookingPrograms := Function.update s.cookingPrograms 3
               { s.cookingPrograms 3 with cookTime := value } }
  | .SET_COOL_TIME =>
    { s with coolTime := value,
             cookingPrograms := Function.update s.cookingPrograms 3
               { s.cookingPrograms 3 with coolTime := value } }
  | .SET_REPETITIONS =>
    { s with repetitions := max 1 value,
             cookingPrograms := Function.update s.cookingPrograms 3
               { s.cookingPrograms 3 with repetitions := max 1 value } }
  | .CONFIG_DONE => s

/-- Lines 317-377: key processing of the configuring handler, on the state left
by the first-pass block. -/
def configKey (s : State) (key : Char) : State :=
  if key = NO_KEY then s
  else if isDigitKey key then
    if s.configInput.length < 4 then
      { s with
        configInput := s.configInput ++ [key],
        trace := s.trace ++ [.lcdSetCursor 2 1,
          .lcdPrint ("-> " ++ String.mk (s.configInput ++ [key]) ++ " seg")] }
    else s
  else if key = '#' then
    if s.configStep ≠ .CONFIG_DONE then
      if s.configInput.length = 0 then
        { s with
          trace := s.trace ++ [.lcdSetCursor 0 1, .lcdPrint "Enter a value   ", .delay 1000],
          configFirstTime := true }
      else
        let value := toInt s.configInput
        if s.configStep = .SET_COOK_TIME ∧ value ≤ 0 then
          { s with
            trace := s.trace ++ [.lcdSetCursor 0 1, .lcdPrint "Debe mas que 0  ", .delay 1000],
            configFirstTime := true }
        else
          let s1 := commitValue s value
          { s1 with configStep := s1.configStep.next, configFirstTime := true }
    else
      resetConfiguration
        (s.emit [.lcdClear, .lcdSetCursor 0 1, .lcdPrint "Cancelado       "])
  else s

/-- Lines 290-378. -/
def handleConfiguringState (s : State) (key : Char) : State :=
  configKey (configPrompt s) key

/-- Label printed on the first LCD row by the cooking handler (lines 400-405).
An index outside 0..3 is outside the array; the model prints nothing for it. -/
def programLabel (s : State) : String :=
  if 0 ≤ s.currentProgramIndex then
    if h : s.currentProgramIndex.toNat < 4 then
      (s.cookingPrograms ⟨s.currentProgramIndex.toNat, h⟩).label
    else ""
  else "Coccion Rapida "

/-- Lines 428-433 and 455-460: the session is complete; the state just before
`resetAfterCooking` is called. -/
def enterFinished (s : State) (message : String) : State :=
  let s1 : State :=
    { s with
      prevState := s.currentState,
      currentState := .FINISHED,
      trace := s.trace ++ [.lcdClear, .lcdPrint message] }
  (handleFinishedBeep s1).emit [.delay 1000]

/-- Lines 420-436 and 447-463: one repetition is over; start the next one or
complete the session. -/
def endRepetition (s : State) (message : String) (msFinish : Nat) : State :=
  let s1 : State := { s with currentRepetitions := s.currentRepetitions - 1 }
  if s1.currentRepetitions > 0 then
    { s1 with
      currentCookTime := s1.cookTime,
      currentCoolTime := s1.coolTime,
      currentStep := 0 }
  else
    resetAfterCooking (enterFinished s1 message) msFinish

/-- Lines 396-466: the body executed when the one-second timer fires. `now` is
the value of `millis()` already reduced to `unsigned long`. -/
def timerFired (s : State) (now : Nat) (msFinish : Nat) : State :=
  let s1 : State :=
    { s with
      lastTimerUpdate := now,
      trace := s.trace ++ [.lcdSetCursor 0 0, .lcdPrint (programLabel s)] }
  if s1.currentStep = 0 then
    if s1.currentCookTime ≥ 0 then
      { s1 with
        trace := s1.trace ++ [.lcdSetCursor 0 1, .lcdPrint "Calentando:",
                              .lcdPrintInt s1.currentCookTime, .lcdPrint " s  "],
        currentCookTime := s1.currentCookTime - 1 }
    else if s1.currentCoolTime > 0 then
      { s1 with currentStep := 1 }
    else
      endRepetition s1 "Completado      " msFinish
  else if s1.currentStep = 1 then
    if s1.currentCoolTime ≥ 0 then
      { s1 with
        trace := s1.trace ++ [.lcdSetCursor 0 1, .lcdPrint "Esperando: ",
                              .lcdPrintInt s1.currentCoolTime, .lcdPrint " s  "],
        currentCoolTime := s1.currentCoolTime - 1 }
    else
      endRepetition s1 "Terminado!      " msFinish
  else s1

/-- Lines 381-467.  `door` is the pin level read at line 382, `ms` the raw
reading of `millis()` at line 394, `msFinish` the one of the `millis()` call in
`resetAfterCooking`. -/
def handleCookingState (s : State) (door : Bool) (ms : Nat) (msFinish : Nat) : State :=
  if door = false then
    { s with
      prevState := s.currentState,
      currentState := .PAUSED,
      trace := s.trace ++ [.lcdClear, .lcdPrint "Pausado p.abiert"] }
  else if timerInterval ≤ elapsed (millis ms) s.lastTimerUpdate then
    timerFired s (millis ms) msFinish
  else s

/-- Lines 470-482. -/
def handlePausedState (s : State) (door : Bool) (ms : Nat) : State :=
  if door = true then
    { s with
      prevState := s.currentState,
      currentState := .COOKING,
      trace := s.trace ++ [.lcdClear, .lcdPrint "Reanudando", .delay 1000],
      lastTimerUpdate := millis ms }
  else s

/-- Lines 588-601. -/
def handleDoorOpenState (s : State) : State :=
  { s with
    light := true,
    trace := s.trace ++ [.lcdSetCursor 0 0, .lcdPrint "Cierre la puerta", .lcdSetCursor 0 1,
      .lcdPrint (if s.currentState = .PAUSED ∨ s.currentState = .COOKING
                 then "Para continuar  " else "Para iniciar    ")] }

/-- Lines 231-234: draw the initial screen when it is not on the display. -/
def ensureScreen (s : State) : State :=
  if s.screenInitialized = false then
    { showInitialScreen s with screenInitialized := true }
  else s

/-- Lines 229-256. -/
def handleCurrentState (s : State) (key : Char) (door : Bool) (ms msFinish : Nat) : State :=
  let s1 : State := ensureScreen s
  match s1.currentState with
  | .WAITING => handleWaitingState s1 key ms
  | .CONFIGURING => handleConfiguringState s1 key
  | .COOKING => handleCookingState s1 door ms msFinish
  | .PAUSED => handlePausedState s1 door ms
  | .FINISHED => handleFinishedState s1
  | .DOOR_OPEN => handleDoorOpenState s1

/-! ## Light, ring and buzzer -/

/-- Lines 575-585. -/
def updateInteriorLight (s : State) (door : Bool) : State :=
  { s with light := (door = false) || (s.currentState = .COOKING) }

/-- Call `ring.setPixelColor(n, c)`: indices outside the strip are ignored. -/
def setPixelColor (px : List Color) (n : Int) (c : Color) : List Color :=
  if 0 ≤ n then px.set n.toNat c else px

/-- Brightness of the `i`-th pixel of the trail (lines 622-623). -/
def trailColor (i : Int) : Color :=
  let brightness := max 0 (255 - i * 80)
  { r := brightness, g := brightness, b := brightness }

/-- Position of the `i`-th pixel of the trail (line 619). -/
def trailIndex (headIndex i : Int) : Int :=
  Int.tmod (headIndex - i + numPixels) numPixels

/-- Lines 610-633. -/
def updateRotatingPattern (s : State) (ms : Nat) : State :=
  if updateInterval ≤ elapsed (millis ms) s.lastUpdate then
    let px0 := ringOff
    let px1 := setPixelColor px0 (trailIndex s.headIndex 0) (trailColor 0)
    let px2 := setPixelColor px1 (trailIndex s.headIndex 1) (trailColor 1)
    let px3 := setPixelColor px2 (trailIndex s.headIndex 2) (trailColor 2)
    { s with
      lastUpdate := millis ms,
      ringPixels := px3,
      ringShown := px3,
      headIndex := Int.tmod (s.headIndex + 1) numPixels }
  else s

/-- Lines 666-688. -/
def updateBlinkingPattern (s : State) (ms : Nat) : State :=
  if s.ledsOn then
    if onDuration ≤ elapsed (millis ms) s.previousMillis then
      { s with ledsOn := false, previousMillis := millis ms,
               ringPixels := ringOff, ringShown := ringOff }
    else s
  else
    if offDuration ≤ elapsed (millis ms) s.previousMillis then
      { s with ledsOn := true, previousMillis := millis ms,
               ringPixels := ringWhite, ringShown := ringWhite }
    else s

/-- Lines 636-657. -/
def updatePlatePattern (s : State) (door : Bool) (ms : Nat) : State :=
  let s1 : State := { s with ringPixels := ringOff }
  if door = false then
    { s1 with ringPixels := ringWhite, ringShown := ringWhite }
  else if s1.currentState = .COOKING then
    if s1.currentStep = 0 then updateRotatingPattern s1 ms
    else if s1.currentStep = 1 then updateBlinkingPattern s1 ms
    else s1
  else s1

/-- Lines 692-734. -/
def updateBuzzer (s : State) (ms : Nat) (door : Bool) : State :=
  let currentMillis := millis ms
  if door = false then
    { s with buzzer := none, phaseSoundEnabled := false }
  else
    let s1 : State :=
      if s.currentStep ≠ s.lastStep then
        { s with phaseStartTime := currentMillis, phaseSoundEnabled := false,
                 lastStep := s.currentStep }
      else s
    match s1.currentState with
    | .COOKING =>
      let s2 : State :=
        if s1.phaseSoundEnabled = false ∧ 1000 ≤ elapsed currentMillis s1.phaseStartTime then
          { s1 with phaseSoundEnabled := true }
        else s1
      { s2 with
        buzzer := if s2.phaseSoundEnabled then
                    (if s2.currentStep = 0 then some HEATING_TONE else some COOLING_TONE)
                  else none,
        beepCounter := 0 }
    | _ => { s1 with buzzer := none }

/-! ## The main loop -/

/-- Lines 209-217: door preemption and restoration. -/
def doorRule (s : State) (doorClosed : Bool) : State :=
  if doorClosed = false ∧ s.currentState ≠ .DOOR_OPEN then
    { s with prevState := s.currentState, currentState := .DOOR_OPEN,
             screenInitialized := false }
  else if doorClosed = true ∧ s.currentState = .DOOR_OPEN then
    { s with currentState := s.prevState, screenInitialized := false }
  else s

/-- Lines 204-226: one pass through `loop`. -/
def loop (s : State) (i : Input) : State :=
  let s1 := doorRule s i.doorLoop
  let s2 := handleCurrentState s1 i.key i.doorHandler i.msHandler i.msFinish
  let s3 := checkCancel s2 i.key i.msCancel
  let s4 := updateInteriorLight s3 i.doorLight
  let s5 := updatePlatePattern s4 i.doorRing i.msRing
  updateBuzzer s5 i.msBuzzer i.doorBuzzer

/-- Run `loop` once per input, in order. -/
def run (s : State) : List Input → State
  | [] => s
  | i :: rest => run (loop s i) rest

/-- States the appliance can be in after `setup` and any number of passes
through `loop`. -/
def Reachable (s : State) : Prop := ∃ inputs : List Input, run setup inputs = s

/-- A pass in which every door read gives the same level and every clock read
the same value. -/
def Input.uniform (door : Bool) (key : Char) (ms : Nat) : Input :=
  { doorLoop := door, key := key, doorHandler := door, msHandler := ms, msFinish := ms,
    msCancel := ms, doorLight := door, doorRing := door, msRing := ms, msBuzzer := ms,
    doorBuzzer := door }

/-! ## Input sequences used in the statements -/

/-- A pass with the door closed and no key pressed, every clock read giving
`ms`. -/
def quietPass (ms : Nat) : Input := Input.uniform true NO_KEY ms

/-- Engine ticks: `n` passes with the door closed and no key, one second apart,
the first at clock `t + 1000`.  When the timer baseline is `t`, each of them
fires the one-second timer of the cooking handler exactly once. -/
def engineTicks : Nat → Nat → List Input
  | 0, _ => []
  | n + 1, t => quietPass (t + 1000) :: engineTicks n (t + 1000)

/-- The state right after key `key` is pressed at clock 0 in the state left by
`setup`, door closed. -/
def started (key : Char) : State := loop setup (Input.uniform true key 0)

/-! ## Measures on a running session -/

/-- Engine ticks taken by one full repetition of the running session: the
heating countdown shows `cookTime` down to 0 and needs one more tick to leave
the phase; a cooling phase, when there is one, does the same with `coolTime`. -/
def cycleTicks (s : State) : Int :=
  s.cookTime + 2 + (if 0 < s.coolTime then s.coolTime + 2 else 0)

/-- Engine ticks still needed until the running session completes. -/
def remainingTicks (s : State) : Int :=
  (if s.currentStep = 0 then
     s.currentCookTime + 2 + (if 0 < s.currentCoolTime then s.currentCoolTime + 2 else 0)
   else s.currentCoolTime + 2)
  + (s.currentRepetitions - 1) * cycleTicks s

/-- A session is running, in a well-formed phase: mode `COOKING`, phase heating
or cooling, counters not below the sentinel -1, at least one repetition left. -/
def SessionRunning (s : State) : Prop :=
  s.currentState = .COOKING ∧ (s.currentStep = 0 ∨ s.currentStep = 1) ∧
  -1 ≤ s.currentCookTime ∧ -1 ≤ s.currentCoolTime ∧ 1 ≤ s.currentRepetitions ∧
  0 ≤ s.cookTime ∧ 0 ≤ s.coolTime

/-! ## Predicates used in the statements -/

/-- Every read of the door pin within the pass returns the sample taken at the
top of `loop`. -/
def Input.oneDoorSample (i : Input) : Prop :=
  i.doorHandler = i.doorLoop ∧ i.doorLight = i.doorLoop ∧ i.doorRing = i.doorLoop ∧
  i.doorBuzzer = i.doorLoop

/-- States the appliance can be in after `setup` and any number of passes
through `loop` in each of which the door sensor yields one value. -/
def ReachableOneSample (s : State) : Prop :=
  ∃ inputs : List Input, (∀ i ∈ inputs, i.oneDoorSample) ∧ run setup inputs = s

/-- A session is active: the mode is `COOKING` or `PAUSED`, or the mode is
`DOOR_OPEN` and the saved mode is `COOKING` or `PAUSED`. -/
def sessionActive (s : State) : Prop :=
  s.currentState = .COOKING ∨ s.currentState = .PAUSED ∨
  (s.currentState = .DOOR_OPEN ∧ (s.prevState = .COOKING ∨ s.prevState = .PAUSED))

/-- The input buffer holds digit keys only, at most four of them. -/
def bufferWellFormed (s : State) : Prop :=
  (∀ c ∈ s.configInput, isDigitKey c = true) ∧ s.configInput.length ≤ 4

/-- How one call of the mode dispatcher `handleCurrentState` can change the
mode, the saved mode and the remaining repetitions, from state `u` to state
`t`, when the handler reads door level `door`. -/
inductive ModeStep (u t : State) (door : Bool) : Prop where
  | same (h1 : t.currentState = u.currentState) (h2 : t.prevState = u.prevState)
      (h3 : t.currentRepetitions = u.currentRepetitions)
  | configure (h0 : u.currentState = .WAITING) (h1 : t.currentState = .CONFIGURING)
      (h2 : t.prevState = .WAITING) (h3 : t.currentRepetitions = u.currentRepetitions)
  | start (h0 : u.currentState = .WAITING) (h1 : t.currentState = .COOKING)
      (h2 : t.prevState = .WAITING) (h3 : 1 ≤ t.currentRepetitions)
  | leaveConfig (h0 : u.currentState = .CONFIGURING) (h1 : t.currentState = .WAITING)
      (h2 : t.prevState = .CONFIGURING) (h3 : t.currentRepetitions = u.currentRepetitions)
  | pause (h0 : u.currentState = .COOKING) (hd : door = false)
      (h1 : t.currentState = .PAUSED) (h2 : t.prevState = .COOKING)
      (h3 : t.currentRepetitions = u.currentRepetitions)
  | nextRepetition (h0 : u.currentState = .COOKING) (hd : door = true)
      (h1 : t.currentState = .COOKING) (h2 : t.prevState = u.prevState)
      (h3 : t.currentRepetitions = u.currentRepetitions - 1) (h4 : 0 < t.currentRepetitions)
  | complete (h0 : u.currentState = .COOKING) (hd : door = true)
      (h1 : t.currentState = .WAITING) (h2 : t.prevState = .WAITING)
      (h3 : t.currentRepetitions = u.currentRepetitions - 1) (h4 : t.currentRepetitions ≤ 0)
  | resume (h0 : u.currentState = .PAUSED) (hd : door = true)
      (h1 : t.currentState = .COOKING) (h2 : t.prevState = .PAUSED)
      (h3 : t.currentRepetitions = u.currentRepetitions)

/-- The appliance is idle: the mode is `WAITING`, or the mode is `DOOR_OPEN`
and the saved mode is `WAITING`. -/
def idleMode (s : State) : Prop :=
  s.currentState = .WAITING ∨ (s.currentState = .DOOR_OPEN ∧ s.prevState = .WAITING)

/-- The wizard is at its first step and the first-entry flag is set. -/
def draftFresh (s : State) : Prop :=
  s.configStep = .SET_COOK_TIME ∧ s.configFirstTime = true

/-! ## Frame lemmas: what the renderers leave alone -/

/-- The two states agree on mode, session, draft and program slots, that is on
everything except the timers and outputs of the light, ring and buzzer
renderers. -/
def SameCore (a b : State) : Prop :=
  a.currentState = b.currentState ∧ a.prevState = b.prevState ∧
  a.currentCookTime = b.currentCookTime ∧ a.currentCoolTime = b.currentCoolTime ∧
  a.currentRepetitions = b.currentRepetitions ∧ a.currentStep = b.currentStep ∧
  a.currentProgramIndex = b.currentProgramIndex ∧ a.lastTimerUpdate = b.lastTimerUpdate ∧
  a.cookTime = b.cookTime ∧ a.coolTime = b.coolTime ∧ a.repetitions = b.repetitions ∧
  a.configStep = b.configStep ∧ a.configFirstTime = b.configFirstTime ∧
  a.configInput = b.configInput ∧ a.cookingPrograms = b.cookingPrograms ∧
  a.trace = b.trace

theorem SameCore.trans_ {a b c : State} (h₁ : SameCore a b) (h₂ : SameCore b c) :
    SameCore a c := by
  simp only [SameCore] at *
  obtain ⟨a1, a2, a3, a4, a5, a6, a7, a8, a9, a10, a11, a12, a13, a14, a15, a16⟩ := h₁
  obtain ⟨b1, b2, b3, b4, b5, b6, b7, b8, b9, b10, b11, b12, b13, b14, b15, b16⟩ := h₂
  exact ⟨a1.trans b1, a2.trans b2, a3.trans b3, a4.trans b4, a5.trans b5, a6.trans b6,
    a7.trans b7, a8.trans b8, a9.trans b9, a10.trans b10, a11.trans b11, a12.trans b12,
    a13.trans b13, a14.trans b14, a15.trans b15, a16.trans b16⟩

theorem updateInteriorLight_core (s : State) (door : Bool) :
    SameCore (updateInteriorLight s door) s := by
  simp [SameCore, updateInteriorLight]

theorem updateRotatingPattern_core (s : State) (ms : Nat) :
    SameCore (updateRotatingPattern s ms) s := by
  unfold updateRotatingPattern
  split <;> simp [SameCore]

theorem updateBlinkingPattern_core (s : State) (ms : Nat) :
    SameCore (updateBlinkingPattern s ms) s := by
  unfold updateBlinkingPattern
  split <;> split <;> simp [SameCore]

theorem updatePlatePattern_core (s : State) (door : Bool) (ms : Nat) :
    SameCore (updatePlatePattern s door ms) s := by
  unfold updatePlatePattern
  have h0 : SameCore { s with ringPixels := ringOff } s := by simp [SameCore]
  simp only []
  split
  · simp [SameCore]
  · split
    · split
      · exact (updateRotatingPattern_core _ ms).trans_ h0
      · split
        · exact (updateBlinkingPattern_core _ ms).trans_ h0
        · exact h0
    · exact h0

theorem updateBuzzer_core (s : State) (ms : Nat) (door : Bool) :
    SameCore (updateBuzzer s ms door) s := by
  unfold updateBuzzer
  simp only []
  split
  · simp [SameCore]
  · split <;> split <;> (try split) <;> simp [SameCore]

/-- One pass of `loop` agrees, on mode, session, draft and slots, with the
state left by the door rule, the mode handler and the cancel check. -/
theorem loop_core (s : State) (i : Input) :
    SameCore (loop s i)
      (checkCancel (handleCurrentState (doorRule s i.doorLoop) i.key i.doorHandler
        i.msHandler i.msFinish) i.key i.msCancel) := by
  unfold loop
  exact (updateBuzzer_core _ _ _).trans_
    ((updatePlatePattern_core _ _ _).trans_ (updateInteriorLight_core _ _))

/-! ## Reachability -/

theorem run_append (xs ys : List Input) (s : State) :
    run s (xs ++ ys) = run (run s xs) ys := by
  induction xs generalizing s with
  | nil => rfl
  | cons i rest ih => exact ih (loop s i)

theorem reachable_setup : Reachable setup := ⟨[], rfl⟩

theorem reachable_run (s : State) (h : Reachable s) (inputs : List Input) :
    Reachable (run s inputs) := by
  obtain ⟨pre, rfl⟩ := h
  exact ⟨pre ++ inputs, run_append pre inputs setup⟩

theorem reachable_loop (s : State) (h : Reachable s) (i : Input) :
    Reachable (loop s i) :=
  reachable_run s h [i]

theorem reachable_started (key : Char) : Reachable (started key) :=
  reachable_loop setup reachable_setup _

/-! ## Door preemption (C1, C2, C3) -/

theorem doorRule_open (s : State) :
    (doorRule s false).currentState = .DOOR_OPEN ∧
    (doorRule s false).prevState =
      (if s.currentState = .DOOR_OPEN then s.prevState else s.currentState) ∧
    (doorRule s false).currentCookTime = s.currentCookTime ∧
    (doorRule s false).currentCoolTime = s.currentCoolTime ∧
    (doorRule s false).currentRepetitions = s.currentRepetitions ∧
    (doorRule s false).currentStep = s.currentStep ∧
    (doorRule s false).currentProgramIndex = s.currentProgramIndex ∧
    (doorRule s false).lastTimerUpdate = s.lastTimerUpdate ∧
    (doorRule s false).cookTime = s.cookTime ∧
    (doorRule s false).coolTime = s.coolTime ∧
    (doorRule s false).repetitions = s.repetitions ∧
    (doorRule s false).configStep = s.configStep ∧
    (doorRule s false).configFirstTime = s.configFirstTime ∧
    (doorRule s false).configInput = s.configInput ∧
    (doorRule s false).cookingPrograms = s.cookingPrograms := by
  unfold doorRule
  by_cases h : s.currentState = .DOOR_OPEN <;> simp [h]

/-- In mode `DOOR_OPEN` the dispatcher and the cancel check change nothing but
the light, the LCD trace and the screen flag. -/
theorem dispatch_door_open (s : State) (key : Char) (door : Bool) (ms mf mc : Nat)
    (h : s.currentState = .DOOR_OPEN) :
    let s' := checkCancel (handleCurrentState s key door ms mf) key mc
    s'.currentState = .DOOR_OPEN ∧ s'.prevState = s.prevState ∧
    s'.currentCookTime = s.currentCookTime ∧ s'.currentCoolTime = s.currentCoolTime ∧
    s'.currentRepetitions = s.currentRepetitions ∧ s'.currentStep = s.currentStep ∧
    s'.currentProgramIndex = s.currentProgramIndex ∧
    s'.lastTimerUpdate = s.lastTimerUpdate ∧
    s'.cookTime = s.cookTime ∧ s'.coolTime = s.coolTime ∧ s'.repetitions = s.repetitions ∧
    s'.configStep = s.configStep ∧ s'.configFirstTime = s.configFirstTime ∧
    s'.configInput = s.configInput ∧ s'.cookingPrograms = s.cookingPrograms := by
  have hd : (handleCurrentState s key door ms mf).currentState = .DOOR_OPEN ∧
      (handleCurrentState s key door ms mf).prevState = s.prevState ∧
      (handleCurrentState s key door ms mf).currentCookTime = s.currentCookTime ∧
      (handleCurrentState s key door ms mf).currentCoolTime = s.currentCoolTime ∧
      (handleCurrentState s key door ms mf).currentRepetitions = s.currentRepetitions ∧
      (handleCurrentState s key door ms mf).currentStep = s.currentStep ∧
      (handleCurrentState s key door ms mf).currentProgramIndex = s.currentProgramIndex ∧
      (handleCurrentState s key door ms mf).lastTimerUpdate = s.lastTimerUpdate ∧
      (handleCurrentState s key door ms mf).cookTime = s.cookTime ∧
      (handleCurrentState s key door ms mf).coolTime = s.coolTime ∧
      (handleCurrentState s key door ms mf).repetitions = s.repetitions ∧
      (handleCurrentState s key door ms mf).configStep = s.configStep ∧
      (handleCurrentState s key door ms mf).configFirstTime = s.configFirstTime ∧
      (handleCurrentState s key door ms mf).configInput = s.configInput ∧
      (handleCurrentState s key door ms mf).cookingPrograms = s.cookingPrograms := by
    unfold handleCurrentState ensureScreen
    by_cases hsi : s.screenInitialized = false <;>
      simp [hsi, h, showInitialScreen, State.emit, handleDoorOpenState]
  obtain ⟨h1, h2, h3, h4, h5, h6, h7, h8, h9, h10, h11, h12, h13, h14, h15⟩ := hd
  have hc : checkCancel (handleCurrentState s key door ms mf) key mc =
      handleCurrentState s key door ms mf := by
    unfold checkCancel
    simp [h1]
  simp only [hc]
  exact ⟨h1, h2, h3, h4, h5, h6, h7, h8, h9, h10, h11, h12, h13, h14, h15⟩

/-- A pass whose door sample is open: the pass ends in `DOOR_OPEN`, the saved
mode is the mode before the pass (or stays as it was when the mode already was
`DOOR_OPEN`), and session, draft and slots are untouched. -/
theorem loop_door_open (s : State) (i : Input) (h : i.doorLoop = false) :
    (loop s i).currentState = .DOOR_OPEN ∧
    (loop s i).prevState =
      (if s.currentState = .DOOR_OPEN then s.prevState else s.currentState) ∧
    (loop s i).currentCookTime = s.currentCookTime ∧
    (loop s i).currentCoolTime = s.currentCoolTime ∧
    (loop s i).currentRepetitions = s.currentRepetitions ∧
    (loop s i).currentStep = s.currentStep ∧
    (loop s i).currentProgramIndex = s.currentProgramIndex ∧
    (loop s i).lastTimerUpdate = s.lastTimerUpdate ∧
    (loop s i).cookTime = s.cookTime ∧
    (loop s i).coolTime = s.coolTime ∧
    (loop s i).repetitions = s.repetitions ∧
    (loop s i).configStep = s.configStep ∧
    (loop s i).configFirstTime = s.configFirstTime ∧
    (loop s i).configInput = s.configInput ∧
    (loop s i).cookingPrograms = s.cookingPrograms := by
  have hc := loop_core s i
  rw [h] at hc
  obtain ⟨c1, c2, c3, c4, c5, c6, c7, c8, c9, c10, c11, c12, c13, c14, c15, -⟩ := hc
  obtain ⟨r1, r2, r3, r4, r5, r6, r7, r8, r9, r10, r11, r12, r13, r14, r15⟩ := doorRule_open s
  obtain ⟨d1, d2, d3, d4, d5, d6, d7, d8, d9, d10, d11, d12, d13, d14, d15⟩ :=
    dispatch_door_open (doorRule s false) i.key i.doorHandler i.msHandler i.msFinish
      i.msCancel r1
  exact ⟨c1.trans d1, (c2.trans d2).trans r2, (c3.trans d3).trans r3, (c4.trans d4).trans r4,
    (c5.trans d5).trans r5, (c6.trans d6).trans r6, (c7.trans d7).trans r7,
    (c8.trans d8).trans r8, (c9.trans d9).trans r9, (c10.trans d10).trans r10,
    (c11.trans d11).trans r11, (c12.trans d12).trans r12, (c13.trans d13).trans r13,
    (c14.trans d14).trans r14, (c15.trans d15).trans r15⟩

/-- C2. A pass through `loop` whose door sample is open ends in mode
`DOOR_OPEN`, for every state, key and clock value, and leaves unchanged the
session (phase, remaining cook seconds, remaining cool seconds, remaining
repetitions, source program index, timer baseline), the configuration draft
(step, input buffer, first-entry flag, committed values) and the four program
slots. -/
theorem C2_door_open_pass_changes_nothing (s : State) (i : Input) (h : i.doorLoop = false) :
    (loop s i).currentState = .DOOR_OPEN ∧
    ((loop s i).currentStep = s.currentStep ∧
     (loop s i).currentCookTime = s.currentCookTime ∧
     (loop s i).currentCoolTime = s.currentCoolTime ∧
     (loop s i).currentRepetitions = s.currentRepetitions ∧
     (loop s i).currentProgramIndex = s.currentProgramIndex ∧
     (loop s i).lastTimerUpdate = s.lastTimerUpdate) ∧
    ((loop s i).configStep = s.configStep ∧
     (loop s i).configInput = s.configInput ∧
     (loop s i).configFirstTime = s.configFirstTime ∧
     (loop s i).cookTime = s.cookTime ∧
     (loop s i).coolTime = s.coolTime ∧
     (loop s i).repetitions = s.repetitions) ∧
    (loop s i).cookingPrograms = s.cookingPrograms := by
  obtain ⟨r1, -, r3, r4, r5, r6, r7, r8, r9, r10, r11, r12, r13, r14, r15⟩ :=
    loop_door_open s i h
  exact ⟨r1, ⟨r6, r3, r4, r5, r7, r8⟩, ⟨r12, r14, r13, r9, r10, r11⟩, r15⟩

/-- C2, instance: slot B is cooking, the door is open and `*` is pressed. -/
theorem C2_door_open_pass_changes_nothing_witness :
    (Input.uniform false '*' 700).doorLoop = false ∧
    (loop (run setup [Input.uniform true 'B' 0]) (Input.uniform false '*' 700)).currentState
      = .DOOR_OPEN ∧
    (loop (run setup [Input.uniform true 'B' 0]) (Input.uniform false '*' 700)).currentCookTime
      = (run setup [Input.uniform true 'B' 0]).currentCookTime :=
  ⟨rfl,
   (C2_door_open_pass_changes_nothing (run setup [Input.uniform true 'B' 0])
      (Input.uniform false '*' 700) rfl).1,
   (C2_door_open_pass_changes_nothing (run setup [Input.uniform true 'B' 0])
      (Input.uniform false '*' 700) rfl).2.1.2.1⟩

theorem ensureScreen_eq (s : State) :
    ensureScreen s =
      { s with
        trace := if s.screenInitialized = false then (showInitialScreen s).trace else s.trace,
        screenInitialized := true } := by
  unfold ensureScreen
  by_cases h : s.screenInitialized = false
  · simp [h, showInitialScreen, State.emit]
  · have h' : s.screenInitialized = true := by simpa using h
    simp [h']
    cases s
    simp_all

theorem doorRule_prevState (s : State) (door : Bool) (h : s.prevState ≠ .DOOR_OPEN) :
    (doorRule s door).prevState ≠ .DOOR_OPEN := by
  unfold doorRule
  split
  · rename_i hc
    simpa using hc.2
  · split <;> simpa using h

theorem endRepetition_prevState (s : State) (m : String) (mf : Nat)
    (h : s.prevState ≠ .DOOR_OPEN) : (endRepetition s m mf).prevState ≠ .DOOR_OPEN := by
  unfold endRepetition
  simp only []
  split
  · simpa using h
  · simp [resetAfterCooking]

theorem timerFired_prevState (s : State) (now mf : Nat)
    (h : s.prevState ≠ .DOOR_OPEN) : (timerFired s now mf).prevState ≠ .DOOR_OPEN := by
  unfold timerFired
  simp only []
  split
  · split
    · simpa using h
    · split
      · simpa using h
      · exact endRepetition_prevState _ _ _ (by simpa using h)
  · split
    · split
      · simpa using h
      · exact endRepetition_prevState _ _ _ (by simpa using h)
    · simpa using h

theorem configKey_prevState (s : State) (key : Char) (h : s.prevState ≠ .DOOR_OPEN)
    (hc : s.currentState = .CONFIGURING) : (configKey s key).prevState ≠ .DOOR_OPEN := by
  unfold configKey
  simp only []
  split_ifs <;>
    first
    | exact h
    | (simp [resetConfiguration, State.emit, commitValue, hc]; done)
    | (unfold commitValue; split <;> simpa using h)

theorem handleCurrentState_prevState (s : State) (key : Char) (door : Bool) (ms mf : Nat)
    (h : s.prevState ≠ .DOOR_OPEN) :
    (handleCurrentState s key door ms mf).prevState ≠ .DOOR_OPEN := by
  unfold handleCurrentState
  simp only []
  have hp : (ensureScreen s).prevState ≠ .DOOR_OPEN := by
    rw [ensureScreen_eq]; exact h
  generalize ensureScreen s = t at hp ⊢
  split
  · rename_i hc
    unfold handleWaitingState startCookingProgram
    split_ifs <;> simp [hc, hp]
  · rename_i hc
    unfold handleConfiguringState
    apply configKey_prevState
    · unfold configPrompt; split <;> simpa using hp
    · unfold configPrompt; split <;> simpa using hc
  · rename_i hc
    unfold handleCookingState
    split_ifs
    · simp [hc]
    · exact timerFired_prevState _ _ _ hp
    · exact hp
  · rename_i hc
    unfold handlePausedState
    split_ifs
    · simp [hc]
    · exact hp
  · exact hp
  · simpa [handleDoorOpenState] using hp

theorem checkCancel_prevState (s : State) (key : Char) (ms : Nat)
    (h : s.prevState ≠ .DOOR_OPEN) : (checkCancel s key ms).prevState ≠ .DOOR_OPEN := by
  unfold checkCancel
  split_ifs
  · simp [resetAfterCooking]
  · exact h
  · exact h

/-- The saved mode is not `DOOR_OPEN` after a pass when it was not before. -/
theorem loop_prevState (s : State) (i : Input) (h : s.prevState ≠ .DOOR_OPEN) :
    (loop s i).prevState ≠ .DOOR_OPEN := by
  rw [(loop_core s i).2.1]
  exact checkCancel_prevState _ _ _
    (handleCurrentState_prevState _ _ _ _ _ (doorRule_prevState s _ h))

theorem run_prevState (inputs : List Input) (s : State) (h : s.prevState ≠ .DOOR_OPEN) :
    (run s inputs).prevState ≠ .DOOR_OPEN := by
  induction inputs generalizing s with
  | nil => exact h
  | cons i rest ih => exact ih (loop s i) (loop_prevState s i h)

/-- C3. In every state reachable from the state after `setup` by any sequence
of passes through `loop` (any door samples, keys and clock values), the saved
previous mode `prevState` is not `DOOR_OPEN`. -/
theorem C3_prevState_never_door_open (s : State) (h : Reachable s) :
    s.prevState ≠ .DOOR_OPEN := by
  obtain ⟨inputs, rfl⟩ := h
  exact run_prevState inputs setup (by decide)

/-- C3, instance: the state after opening the door twice in a row. -/
theorem C3_prevState_never_door_open_witness :
    Reachable (run setup [Input.uniform false NO_KEY 0, Input.uniform false NO_KEY 50]) ∧
    (run setup [Input.uniform false NO_KEY 0, Input.uniform false NO_KEY 50]).prevState
      ≠ .DOOR_OPEN :=
  ⟨⟨_, rfl⟩, C3_prevState_never_door_open _ ⟨_, rfl⟩⟩

/-! ## Global cancel (C4) -/

theorem doorRule_closed (s : State) (h : s.currentState ≠ .DOOR_OPEN) :
    doorRule s true = s := by
  unfold doorRule
  simp [h]

theorem endRepetition_mode (s : State) (m : String) (mf : Nat)
    (h : s.currentState = .COOKING) :
    (endRepetition s m mf).currentState = .COOKING ∨
    ((endRepetition s m mf).currentState = .WAITING ∧
     (endRepetition s m mf).configStep = .SET_COOK_TIME) := by
  unfold endRepetition
  simp only []
  split
  · left; simpa using h
  · right; simp [resetAfterCooking]

theorem timerFired_mode (s : State) (now mf : Nat) (h : s.currentState = .COOKING) :
    (timerFired s now mf).currentState = .COOKING ∨
    ((timerFired s now mf).currentState = .WAITING ∧
     (timerFired s now mf).configStep = .SET_COOK_TIME) := by
  unfold timerFired
  simp only []
  split
  · split
    · left; simpa using h
    · split
      · left; simpa using h
      · exact endRepetition_mode _ _ _ (by simpa using h)
  · split
    · split
      · left; simpa using h
      · exact endRepetition_mode _ _ _ (by simpa using h)
    · left; simpa using h

/-- With key `*`, the handler of a cancellable mode leaves a cancellable mode,
or has completed the session and gone back to `WAITING`. -/
theorem handleCurrentState_star (s : State) (door : Bool) (ms mf : Nat)
    (h : s.currentState = .CONFIGURING ∨ s.currentState = .COOKING ∨
      s.currentState = .PAUSED) :
    ((handleCurrentState s '*' door ms mf).currentState = .CONFIGURING ∨
     (handleCurrentState s '*' door ms mf).currentState = .COOKING ∨
     (handleCurrentState s '*' door ms mf).currentState = .PAUSED) ∨
    ((handleCurrentState s '*' door ms mf).currentState = .WAITING ∧
     (handleCurrentState s '*' door ms mf).configStep = .SET_COOK_TIME) := by
  unfold handleCurrentState
  simp only []
  have hp : (ensureScreen s).currentState = s.currentState := by
    rw [ensureScreen_eq]
  rw [← hp] at h
  generalize ensureScreen s = t at h ⊢
  rcases h with h | h | h
  · left; left
    simp only [h]
    have hk : configKey (configPrompt t) '*' = configPrompt t := by
      unfold configKey
      simp [NO_KEY, isDigitKey]
    unfold handleConfiguringState
    rw [hk]
    unfold configPrompt
    split <;> simpa using h
  · simp only [h]
    unfold handleCookingState
    split_ifs
    · left; right; right; simp
    · rcases timerFired_mode t (millis ms) mf h with h' | h'
      · left; right; left; exact h'
      · right; exact h'
    · left; right; left; exact h
  · left
    simp only [h]
    unfold handlePausedState
    split_ifs
    · right; left; simp
    · right; right; exact h

/-- C4. From mode `CONFIGURING`, `COOKING` or `PAUSED`, a pass through `loop`
whose door sample is closed and whose key is `*` ends in mode `WAITING` (Idle)
with the configuration step reset to `SET_COOK_TIME`, whatever the phase, the
remaining seconds, the remaining repetitions, the configuration step and the
clock. -/
theorem C4_cancel_returns_to_waiting (s : State) (i : Input)
    (hm : s.currentState = .CONFIGURING ∨ s.currentState = .COOKING ∨
      s.currentState = .PAUSED)
    (hd : i.doorLoop = true) (hk : i.key = '*') :
    (loop s i).currentState = .WAITING ∧ (loop s i).configStep = .SET_COOK_TIME := by
  have hc := loop_core s i
  rw [hc.1, hc.2.2.2.2.2.2.2.2.2.2.2.1, hd, hk]
  have hne : s.currentState ≠ .DOOR_OPEN := by
    rcases hm with h | h | h <;> simp [h]
  rw [doorRule_closed s hne]
  have hh := handleCurrentState_star s i.doorHandler i.msHandler i.msFinish hm
  generalize handleCurrentState s '*' i.doorHandler i.msHandler i.msFinish = t at hh
  unfold checkCancel
  rcases hh with hh | ⟨h1, h2⟩
  · simp [hh, resetAfterCooking]
  · simp [h1, h2]

/-- C4, instance: slot B is cooking and `*` is pressed with the door closed. -/
theorem C4_cancel_returns_to_waiting_witness :
    (run setup [Input.uniform true 'B' 0]).currentState = .COOKING ∧
    (loop (run setup [Input.uniform true 'B' 0]) (Input.uniform true '*' 300)).currentState
      = .WAITING ∧
    (loop (run setup [Input.uniform true 'B' 0]) (Input.uniform true '*' 300)).configStep
      = .SET_COOK_TIME :=
  ⟨by decide!,
   C4_cancel_returns_to_waiting (run setup [Input.uniform true 'B' 0])
     (Input.uniform true '*' 300) (Or.inr (Or.inl (by decide!))) rfl rfl⟩

/-! ## Door opened while cooking (C1) -/

/-- C1 fails on the code.  Quick cook `5` is started at clock 0 (a reachable
state in mode `COOKING` with 5 seconds left and timer baseline 0); the door is
sampled open at clock 500 and closed at clock 1500.  The door rule of the
closing pass (lines 214-217) restores `COOKING` without moving the timer
baseline `lastTimerUpdate`, so the cooking handler of the same pass fires its
one-second timer: 4 seconds are left, not 5.  The resume path of the code
itself, `handlePausedState` (line 480), does move the baseline: from the state
`PAUSED` reached when the cooking handler reads the door open at clock 500,
the pass at clock 1500 resumes `COOKING` with baseline 1500 and 5 seconds left.
In the last run (quick cook `1`, two engine ticks, door open at 2500, closed at
3000) the closing pass completes the session and ends in `WAITING`. -/
theorem C1_closing_pass_counts_down :
    (Reachable (started '5') ∧
     (started '5').currentState = .COOKING ∧
     (started '5').currentCookTime = 5 ∧
     (started '5').lastTimerUpdate = 0) ∧
    ((loop (started '5') (Input.uniform false NO_KEY 500)).currentState = .DOOR_OPEN ∧
     (loop (started '5') (Input.uniform false NO_KEY 500)).prevState = .COOKING ∧
     (loop (started '5') (Input.uniform false NO_KEY 500)).currentCookTime = 5 ∧
     (loop (started '5') (Input.uniform false NO_KEY 500)).lastTimerUpdate = 0) ∧
    ((loop (loop (started '5') (Input.uniform false NO_KEY 500))
       (Input.uniform true NO_KEY 1500)).currentState = .COOKING ∧
     (loop (loop (started '5') (Input.uniform false NO_KEY 500))
       (Input.uniform true NO_KEY 1500)).currentCookTime = 4) ∧
    ((loop (started '5')
       { Input.uniform true NO_KEY 500 with doorHandler := false }).currentState = .PAUSED ∧
     (loop (loop (started '5') { Input.uniform true NO_KEY 500 with doorHandler := false })
       (Input.uniform true NO_KEY 1500)).currentState = .COOKING ∧
     (loop (loop (started '5') { Input.uniform true NO_KEY 500 with doorHandler := false })
       (Input.uniform true NO_KEY 1500)).lastTimerUpdate = 1500 ∧
     (loop (loop (started '5') { Input.uniform true NO_KEY 500 with doorHandler := false })
       (Input.uniform true NO_KEY 1500)).currentCookTime = 5) ∧
    (Reachable (run (started '1') (engineTicks 2 0)) ∧
     (run (started '1') (engineTicks 2 0)).currentState = .COOKING ∧
     (loop (run (started '1') (engineTicks 2 0))
       (Input.uniform false NO_KEY 2500)).currentState = .DOOR_OPEN ∧
     (loop (loop (run (started '1') (engineTicks 2 0)) (Input.uniform false NO_KEY 2500))
       (Input.uniform true NO_KEY 3000)).currentState = .WAITING) :=
  ⟨⟨reachable_started '5', by decide!, by decide!, by decide!⟩,
   ⟨by decide!, by decide!, by decide!, by decide!⟩,
   ⟨by decide!, by decide!⟩,
   ⟨by decide!, by decide!, by decide!, by decide!⟩,
   ⟨reachable_run _ (reachable_started '1') _, by decide!, by decide!, by decide!⟩⟩

/-- While every door sample is open, the mode stays `DOOR_OPEN`, the saved mode
stays what it was, and the session counters and timer baseline do not move. -/
theorem run_door_open (opens : List Input) (s : State)
    (ho : ∀ i ∈ opens, i.doorLoop = false) (hs : s.currentState = .DOOR_OPEN) :
    (run s opens).currentState = .DOOR_OPEN ∧
    (run s opens).prevState = s.prevState ∧
    (run s opens).currentCookTime = s.currentCookTime ∧
    (run s opens).currentCoolTime = s.currentCoolTime ∧
    (run s opens).currentRepetitions = s.currentRepetitions ∧
    (run s opens).currentStep = s.currentStep ∧
    (run s opens).lastTimerUpdate = s.lastTimerUpdate := by
  induction opens generalizing s with
  | nil => exact ⟨hs, rfl, rfl, rfl, rfl, rfl, rfl⟩
  | cons i rest ih =>
    obtain ⟨r1, r2, r3, r4, r5, r6, -, r8, -⟩ :=
      loop_door_open s i (ho i (List.mem_cons_self i rest))
    rw [if_pos hs] at r2
    obtain ⟨q1, q2, q3, q4, q5, q6, q7⟩ :=
      ih (loop s i) (fun j hj => ho j (List.mem_cons_of_mem i hj)) r1
    exact ⟨q1, q2.trans r2, q3.trans r3, q4.trans r4, q5.trans r5, q6.trans r6, q7.trans r8⟩

/-- The cooking handler on a pass where the door reads closed and less than the
timer interval has elapsed: nothing happens. -/
theorem handleCookingState_idle (s : State) (ms mf : Nat)
    (ht : elapsed (millis ms) s.lastTimerUpdate < timerInterval) :
    handleCookingState s true ms mf = s := by
  unfold handleCookingState
  simp [Nat.not_le.mpr ht]

theorem checkCancel_other (s : State) (key : Char) (ms : Nat) (hk : key ≠ '*') :
    checkCancel s key ms = s := by
  unfold checkCancel
  simp [hk]

/-! ## The cook cycle engine, tick by tick -/

theorem elapsed_one_second (t : Nat) : elapsed (millis (t + 1000)) (millis t) = 1000 := by
  unfold elapsed millis ULONG
  omega

theorem cycleTicks_ge (s : State) (h : SessionRunning s) : 2 ≤ cycleTicks s := by
  obtain ⟨-, -, -, -, -, h6, h7⟩ := h
  unfold cycleTicks
  split <;> omega

/-- The completion branch: with one repetition left, ending the repetition
sets mode `FINISHED` and then resets. -/
theorem endRepetition_last (s : State) (m : String) (mf : Nat)
    (h : s.currentRepetitions - 1 ≤ 0) :
    endRepetition s m mf =
      resetAfterCooking
        (enterFinished { s with currentRepetitions := s.currentRepetitions - 1 } m) mf := by
  unfold endRepetition
  simp only []
  rw [if_neg (by simpa using h)]

/-- One firing of the timer on a running session: either this was the last
tick and the mode is `WAITING`, or the session is still running and one tick
nearer to completion. -/
theorem timerFired_step (u : State) (now mf : Nat) (h : SessionRunning u) :
    (remainingTicks u = 1 ∧ (timerFired u now mf).currentState = .WAITING ∧
      ∃ v m, (enterFinished v m).currentState = .FINISHED ∧
        timerFired u now mf = resetAfterCooking (enterFinished v m) mf) ∨
    (2 ≤ remainingTicks u ∧ SessionRunning (timerFired u now mf) ∧
      (timerFired u now mf).lastTimerUpdate = now ∧
      remainingTicks (timerFired u now mf) = remainingTicks u - 1) := by
  have hP := cycleTicks_ge u h
  obtain ⟨h1, h2, h3, h4, h5, h6, h7⟩ := h
  have hX : 0 ≤ (u.currentRepetitions - 1) * cycleTicks u :=
    mul_nonneg (by omega) (by omega)
  have hX2 : 2 ≤ u.currentRepetitions → 2 ≤ (u.currentRepetitions - 1) * cycleTicks u := by
    intro hr
    nlinarith
  unfold timerFired
  simp only []
  rcases h2 with h2 | h2
  · rw [if_pos h2]
    by_cases hc : u.currentCookTime ≥ 0
    · rw [if_pos hc]
      right
      refine ⟨?_, ⟨h1, Or.inl h2, ?_, h4, h5, h6, h7⟩, rfl, ?_⟩
      · simp only [remainingTicks, h2, if_true]
        split <;> omega
      · simp only []; omega
      · simp only [remainingTicks, cycleTicks, h2, if_true]
        ring
    · rw [if_neg hc]
      have hc1 : u.currentCookTime = -1 := by omega
      by_cases hk : u.currentCoolTime > 0
      · rw [if_pos hk]
        right
        refine ⟨?_, ⟨h1, Or.inr rfl, h3, h4, h5, h6, h7⟩, rfl, ?_⟩
        · simp only [remainingTicks, h2, if_true, if_pos hk]
          omega
        · simp only [remainingTicks, cycleTicks, h2, if_true, if_pos hk, hc1]
          simp
          ring
      · rw [if_neg hk]
        by_cases hr : u.currentRepetitions - 1 > 0
        · right
          unfold endRepetition
          simp only []
          rw [if_pos hr]
          refine ⟨?_, ⟨h1, Or.inl rfl, ?_, ?_, ?_, h6, h7⟩, rfl, ?_⟩
          · simp only [remainingTicks, h2, if_true, if_neg hk, hc1]
            have := hX2 (by omega)
            omega
          · simp only []; omega
          · simp only []; omega
          · simp only []; omega
          · simp only [remainingTicks, cycleTicks, h2, if_true, if_neg hk, hc1]
            ring
        · left
          have hr1 : u.currentRepetitions = 1 := by omega
          refine ⟨?_, ?_, ?_⟩
          · simp only [remainingTicks, h2, if_true, if_neg hk, hc1, hr1]
            simp
          · rw [endRepetition_last _ _ _ (by simpa using hr)]
            rfl
          · exact ⟨_, _, rfl, endRepetition_last _ _ _ (by simpa using hr)⟩
  · have h20 : ¬ u.currentStep = 0 := by omega
    rw [if_neg h20, if_pos h2]
    by_cases hc : u.currentCoolTime ≥ 0
    · rw [if_pos hc]
      right
      refine ⟨?_, ⟨h1, Or.inr h2, h3, ?_, h5, h6, h7⟩, rfl, ?_⟩
      · simp only [remainingTicks, if_neg h20]
        omega
      · simp only []; omega
      · simp only [remainingTicks, cycleTicks, if_neg h20]
        ring
    · rw [if_neg hc]
      have hc1 : u.currentCoolTime = -1 := by omega
      by_cases hr : u.currentRepetitions - 1 > 0
      · right
        unfold endRepetition
        simp only []
        rw [if_pos hr]
        refine ⟨?_, ⟨h1, Or.inl rfl, ?_, ?_, ?_, h6, h7⟩, rfl, ?_⟩
        · simp only [remainingTicks, if_neg h20, hc1]
          have := hX2 (by omega)
          omega
        · simp only []; omega
        · simp only []; omega
        · simp only []; omega
        · simp only [remainingTicks, cycleTicks, if_neg h20, hc1]
          simp
          ring
      · left
        have hr1 : u.currentRepetitions = 1 := by omega
        refine ⟨?_, ?_, ?_⟩
        · simp only [remainingTicks, if_neg h20, hc1, hr1]
          simp
        · rw [endRepetition_last _ _ _ (by simpa using hr)]
          rfl
        · exact ⟨_, _, rfl, endRepetition_last _ _ _ (by simpa using hr)⟩

theorem SameCore.sessionRunning {a b : State} (h : SameCore a b) (hb : SessionRunning b) :
    SessionRunning a := by
  obtain ⟨c1, -, c3, c4, c5, c6, -, -, c9, c10, -⟩ := h
  unfold SessionRunning at *
  rw [c1, c3, c4, c5, c6, c9, c10]
  exact hb

theorem SameCore.remainingTicks_eq {a b : State} (h : SameCore a b) :
    remainingTicks a = remainingTicks b := by
  obtain ⟨-, -, c3, c4, c5, c6, -, -, c9, c10, -⟩ := h
  unfold remainingTicks cycleTicks
  rw [c3, c4, c5, c6, c9, c10]

theorem NO_KEY_ne_star : NO_KEY ≠ '*' := by decide

/-- A pass with the door closed and no key, one second after the timer
baseline, in mode `COOKING`: the pass is one firing of the timer. -/
theorem loop_quietPass_core (s : State) (t : Nat) (hs : s.currentState = .COOKING)
    (hl : s.lastTimerUpdate = millis t) :
    handleCurrentState (doorRule s true) NO_KEY true (t + 1000) (t + 1000) =
      timerFired (ensureScreen s) (millis (t + 1000)) (t + 1000) ∧
    SameCore (loop s (quietPass (t + 1000)))
      (timerFired (ensureScreen s) (millis (t + 1000)) (t + 1000)) := by
  have hh : handleCurrentState (doorRule s true) NO_KEY true (t + 1000) (t + 1000) =
      timerFired (ensureScreen s) (millis (t + 1000)) (t + 1000) := by
    rw [doorRule_closed s (by simp [hs])]
    unfold handleCurrentState
    simp only []
    have hm : (ensureScreen s).currentState = .COOKING := by
      rw [ensureScreen_eq]; exact hs
    have hlu : (ensureScreen s).lastTimerUpdate = millis t := by
      rw [ensureScreen_eq]; exact hl
    rw [hm]
    simp only []
    unfold handleCookingState
    rw [hlu, elapsed_one_second]
    simp [timerInterval]
  refine ⟨hh, ?_⟩
  have hc := loop_core s (quietPass (t + 1000))
  have e : quietPass (t + 1000) = Input.uniform true NO_KEY (t + 1000) := rfl
  rw [e] at hc ⊢
  simp only [Input.uniform] at hc ⊢
  rw [checkCancel_other _ _ _ NO_KEY_ne_star, hh] at hc
  exact hc

/-- One engine tick on a running session whose timer baseline is `t`. -/
theorem loop_quietPass_step (s : State) (t : Nat) (h : SessionRunning s)
    (hl : s.lastTimerUpdate = millis t) :
    (remainingTicks s = 1 ∧ (loop s (quietPass (t + 1000))).currentState = .WAITING ∧
      ∃ v m, (enterFinished v m).currentState = .FINISHED ∧
        handleCurrentState (doorRule s true) NO_KEY true (t + 1000) (t + 1000) =
          resetAfterCooking (enterFinished v m) (t + 1000)) ∨
    (2 ≤ remainingTicks s ∧ SessionRunning (loop s (quietPass (t + 1000))) ∧
      (loop s (quietPass (t + 1000))).lastTimerUpdate = millis (t + 1000) ∧
      remainingTicks (loop s (quietPass (t + 1000))) = remainingTicks s - 1) := by
  obtain ⟨hh, hc⟩ := loop_quietPass_core s t h.1 hl
  have hu : SessionRunning (ensureScreen s) := by
    rw [ensureScreen_eq]; exact h
  have hr : remainingTicks (ensureScreen s) = remainingTicks s := by
    rw [ensureScreen_eq]; rfl
  rcases timerFired_step (ensureScreen s) (millis (t + 1000)) (t + 1000) hu with
    ⟨a1, a2, v, m, a3, a4⟩ | ⟨b1, b2, b3, b4⟩
  · left
    exact ⟨hr ▸ a1, hc.1.trans a2, v, m, a3, hh.trans a4⟩
  · right
    exact ⟨hr ▸ b1, hc.sessionRunning b2, hc.2.2.2.2.2.2.2.1.trans b3,
      hc.remainingTicks_eq.trans (hr ▸ b4)⟩

/-- A running session with `n + 1` engine ticks to go is in mode `COOKING`
after each of the first `n` engine ticks and in mode `WAITING` after the next
one; in that last pass the mode handler returns from the completion branch,
which sets mode `FINISHED` before it resets. -/
theorem run_engineTicks (n : Nat) (s : State) (t : Nat) (h : SessionRunning s)
    (hl : s.lastTimerUpdate = millis t) (hr : remainingTicks s = (n : Int) + 1) :
    (∀ m, m ≤ n → (run s (engineTicks m t)).currentState = .COOKING) ∧
    (run s (engineTicks (n + 1) t)).currentState = .WAITING ∧
    ∃ v m, (enterFinished v m).currentState = .FINISHED ∧
      handleCurrentState (doorRule (run s (engineTicks n t)) true) NO_KEY true
          (t + 1000 * (n + 1)) (t + 1000 * (n + 1)) =
        resetAfterCooking (enterFinished v m) (t + 1000 * (n + 1)) := by
  induction n generalizing s t with
  | zero =>
    rcases loop_quietPass_step s t h hl with ⟨-, a2, a3⟩ | ⟨b1, -⟩
    · refine ⟨?_, a2, a3⟩
      intro m hm
      have : m = 0 := by omega
      subst this
      exact h.1
    · simp at hr
      omega
  | succ n ih =>
    rcases loop_quietPass_step s t h hl with ⟨a1, -⟩ | ⟨-, b2, b3, b4⟩
    · push_cast at hr
      omega
    · have hr' : remainingTicks (loop s (quietPass (t + 1000))) = (n : Int) + 1 := by
        rw [b4, hr]; push_cast; ring
      obtain ⟨i1, i2, i3⟩ := ih (loop s (quietPass (t + 1000))) (t + 1000) b2 b3 hr'
      have e : t + 1000 + 1000 * (n + 1) = t + 1000 * (n + 1 + 1) := by ring
      rw [e] at i3
      refine ⟨?_, i2, i3⟩
      intro m hm
      cases m with
      | zero => exact h.1
      | succ k => exact i1 k (by omega)

/-! ## Starting a session from `WAITING` (C5, C6, C7) -/

theorem key_ne_of_toNat {key c : Char} (h : key.toNat ≠ c.toNat) : key ≠ c := by
  intro e
  exact h (by rw [e])

/-- Key `A`..`D` (code `65 + j`) in mode `WAITING`, door closed: the session
of slot `j` is started and nothing else happens in the pass. -/
theorem loop_start_program (s : State) (i : Input) (j : Fin 4)
    (hs : s.currentState = .WAITING) (hd : i.doorLoop = true)
    (hk : i.key.toNat = 65 + j.val) :
    (loop s i).currentState = .COOKING ∧
    (loop s i).prevState = .WAITING ∧
    (loop s i).currentStep = 0 ∧
    (loop s i).currentProgramIndex = (j.val : Int) ∧
    (loop s i).currentCookTime = (s.cookingPrograms j).cookTime ∧
    (loop s i).currentCoolTime = (s.cookingPrograms j).coolTime ∧
    (loop s i).currentRepetitions = max 1 (s.cookingPrograms j).repetitions ∧
    (loop s i).cookTime = (s.cookingPrograms j).cookTime ∧
    (loop s i).coolTime = (s.cookingPrograms j).coolTime ∧
    (loop s i).repetitions = max 1 (s.cookingPrograms j).repetitions ∧
    (loop s i).lastTimerUpdate = millis i.msHandler ∧
    (loop s i).cookingPrograms = s.cookingPrograms := by
  have hj := j.isLt
  have k0 : i.key ≠ NO_KEY := key_ne_of_toNat (by
    have : NO_KEY.toNat = 0 := by decide
    omega)
  have hv : i.key.toNat - 65 = j.val := by omega
  have k1 : i.key ≠ '#' := key_ne_of_toNat (by rw [hk]; simp; omega)
  have k2 : i.key ≠ '*' := key_ne_of_toNat (by rw [hk]; simp; omega)
  have k3 : 65 ≤ i.key.toNat ∧ i.key.toNat ≤ 68 := by omega
  have hidx : (⟨i.key.toNat - 65, by omega⟩ : Fin 4) = j := by
    apply Fin.ext
    simp [hk]
  have hc := loop_core s i
  rw [hd, doorRule_closed s (by simp [hs]), checkCancel_other _ _ _ k2] at hc
  have hh : handleCurrentState s i.key i.doorHandler i.msHandler i.msFinish =
      startCookingProgram (ensureScreen s) (j.val : Int)
        (s.cookingPrograms j).cookTime (s.cookingPrograms j).coolTime
        (s.cookingPrograms j).repetitions i.msHandler := by
    unfold handleCurrentState
    simp only []
    have hm : (ensureScreen s).currentState = .WAITING := by
      rw [ensureScreen_eq]; exact hs
    have hp : (ensureScreen s).cookingPrograms = s.cookingPrograms := by
      rw [ensureScreen_eq]
    rw [hm]
    simp only []
    unfold handleWaitingState
    rw [if_neg k0, if_neg k1, dif_pos k3]
    simp only [hidx, hp, hv]
  rw [hh] at hc
  obtain ⟨c1, c2, c3, c4, c5, c6, c7, c8, c9, c10, c11, -, -, -, c15, -⟩ := hc
  have hm : (ensureScreen s).currentState = .WAITING := by
    rw [ensureScreen_eq]; exact hs
  have hp : (ensureScreen s).cookingPrograms = s.cookingPrograms := by
    rw [ensureScreen_eq]
  exact ⟨c1, c2.trans hm, c6, c7, c3, c4, c5, c9, c10, c11, c8, c15.trans hp⟩

/-- Key `1`..`9` in mode `WAITING`, door closed: a quick cook is started and
nothing else happens in the pass. -/
theorem loop_start_quick (s : State) (i : Input)
    (hs : s.currentState = .WAITING) (hd : i.doorLoop = true)
    (hk : 49 ≤ i.key.toNat ∧ i.key.toNat ≤ 57) :
    (loop s i).currentState = .COOKING ∧
    (loop s i).prevState = .WAITING ∧
    (loop s i).currentStep = 0 ∧
    (loop s i).currentProgramIndex = -1 ∧
    (loop s i).currentCookTime = (i.key.toNat : Int) - 48 ∧
    (loop s i).currentCoolTime = 0 ∧
    (loop s i).currentRepetitions = 1 ∧
    (loop s i).cookTime = (i.key.toNat : Int) - 48 ∧
    (loop s i).coolTime = 0 ∧
    (loop s i).repetitions = 1 ∧
    (loop s i).lastTimerUpdate = millis i.msHandler ∧
    (loop s i).cookingPrograms = s.cookingPrograms := by
  have k0 : i.key ≠ NO_KEY := key_ne_of_toNat (by
    have : NO_KEY.toNat = 0 := by decide
    omega)
  have k1 : i.key ≠ '#' := key_ne_of_toNat (by simp; omega)
  have k2 : i.key ≠ '*' := key_ne_of_toNat (by simp; omega)
  have k3 : ¬ (65 ≤ i.key.toNat ∧ i.key.toNat ≤ 68) := by omega
  have hc := loop_core s i
  rw [hd, doorRule_closed s (by simp [hs]), checkCancel_other _ _ _ k2] at hc
  have hh : handleCurrentState s i.key i.doorHandler i.msHandler i.msFinish =
      startCookingProgram { ensureScreen s with currentProgramIndex := -1 } (-1)
        ((i.key.toNat : Int) - 48) 0 1 i.msHandler := by
    unfold handleCurrentState
    simp only []
    have hm : (ensureScreen s).currentState = .WAITING := by
      rw [ensureScreen_eq]; exact hs
    rw [hm]
    simp only []
    unfold handleWaitingState
    rw [if_neg k0, if_neg k1, dif_neg k3, if_pos hk, hm]
  rw [hh] at hc
  obtain ⟨c1, c2, c3, c4, c5, c6, c7, c8, c9, c10, c11, -, -, -, c15, -⟩ := hc
  have hm : (ensureScreen s).currentState = .WAITING := by
    rw [ensureScreen_eq]; exact hs
  have hp : (ensureScreen s).cookingPrograms = s.cookingPrograms := by
    rw [ensureScreen_eq]
  exact ⟨c1, c2.trans hm, c6, c7, c3, c4, c5, c9, c10, c11, c8, c15.trans hp⟩

/-! ## Duration of the preset programs (C5) -/

theorem sessionRunning_of_start (u : State) (c k r : Int)
    (h1 : u.currentState = .COOKING) (h2 : u.currentStep = 0)
    (h3 : u.currentCookTime = c) (h4 : u.currentCoolTime = k)
    (h5 : u.currentRepetitions = r) (h6 : u.cookTime = c) (h7 : u.coolTime = k)
    (hc : 0 ≤ c) (hk : 0 ≤ k) (hr : 1 ≤ r) :
    SessionRunning u ∧
    remainingTicks u = r * (c + 2 + (if 0 < k then k + 2 else 0)) := by
  constructor
  · unfold SessionRunning
    rw [h1, h2, h3, h4, h5, h6, h7]
    exact ⟨rfl, Or.inl rfl, by omega, by omega, hr, hc, hk⟩
  · unfold remainingTicks cycleTicks
    rw [h2, h3, h4, h5, h6, h7]
    simp only [if_true]
    ring

/-- Duration of the session of a slot with cook seconds `c`, cool seconds `k`
and one repetition count `r`, started by its key from `WAITING` at clock `t`:
with `n + 1` the number of engine ticks given by `remainingTicks`. -/
theorem started_slot_duration (s : State) (t : Nat) (key : Char) (j : Fin 4) (n : Nat)
    (hs : s.currentState = .WAITING) (hk : key.toNat = 65 + j.val)
    (hc : 0 ≤ (s.cookingPrograms j).cookTime) (hcool : 0 ≤ (s.cookingPrograms j).coolTime)
    (hr : 1 ≤ (s.cookingPrograms j).repetitions)
    (hn : (s.cookingPrograms j).repetitions *
        ((s.cookingPrograms j).cookTime + 2 +
          (if 0 < (s.cookingPrograms j).coolTime then (s.cookingPrograms j).coolTime + 2
           else 0)) = (n : Int) + 1) :
    (∀ m, m ≤ n →
      (run (loop s (Input.uniform true key t)) (engineTicks m t)).currentState = .COOKING) ∧
    (run (loop s (Input.uniform true key t)) (engineTicks (n + 1) t)).currentState
      = .WAITING ∧
    ∃ v m, (enterFinished v m).currentState = .FINISHED ∧
      handleCurrentState
          (doorRule (run (loop s (Input.uniform true key t)) (engineTicks n t)) true)
          NO_KEY true (t + 1000 * (n + 1)) (t + 1000 * (n + 1)) =
        resetAfterCooking (enterFinished v m) (t + 1000 * (n + 1)) := by
  obtain ⟨a1, -, a3, -, a5, a6, a7, a8, a9, -, a11, -⟩ :=
    loop_start_program s (Input.uniform true key t) j hs rfl hk
  rw [max_eq_right hr] at a7
  obtain ⟨b1, b2⟩ := sessionRunning_of_start (loop s (Input.uniform true key t)) _ _ _
    a1 a3 a5 a6 a7 a8 a9 hc hcool hr
  exact run_engineTicks n _ t b1 a11 (b2.trans hn)

/-- C5 fails as stated.  Slot A (cook 30, cool 0, 1 repetition) is started at
clock 0 in the state left by `setup`: after 30 engine ticks, and still after
31, the mode is `COOKING`.  Slot B (cook 20, cool 10, 5 repetitions): after 150
engine ticks the mode is `COOKING`. -/
theorem C5_counterexample :
    (setup.currentState = .WAITING ∧
     (started 'A').currentCookTime = 30 ∧ (started 'A').currentCoolTime = 0 ∧
     (started 'A').currentRepetitions = 1 ∧
     (started 'B').currentCookTime = 20 ∧ (started 'B').currentCoolTime = 10 ∧
     (started 'B').currentRepetitions = 5) ∧
    (run (started 'A') (engineTicks 30 0)).currentState = .COOKING ∧
    (run (started 'A') (engineTicks 31 0)).currentState = .COOKING ∧
    (run (started 'B') (engineTicks 150 0)).currentState = .COOKING := by
  have hA := started_slot_duration setup 0 'A' 0 31 (by decide) (by decide) (by decide)
    (by decide) (by decide) (by decide)
  have hB := started_slot_duration setup 0 'B' 1 169 (by decide) (by decide) (by decide)
    (by decide) (by decide) (by decide)
  exact ⟨by decide!, hA.1 30 (by omega), hA.1 31 (by omega), hB.1 150 (by omega)⟩

/-- C5, amended.  In mode `WAITING` with the door closed, with slot A holding
cook 30, cool 0, 1 repetition and slot B holding cook 20, cool 10, 5
repetitions: after key `A` the mode is `COOKING` after every number of engine
ticks smaller than 32, and `WAITING` after exactly 32 = 30 + 2 engine ticks;
after key `B` the mode is `COOKING` after every number of engine ticks smaller
than 170, and `WAITING` after exactly 170 = 5 × (20 + 10 + 4) engine ticks.  In
both cases the mode handler of the last pass returns from the completion
branch, which sets mode `FINISHED` and then resets to `WAITING`. -/
theorem C5_preset_durations (s : State) (t : Nat) (hs : s.currentState = .WAITING)
    (hA : (s.cookingPrograms 0).cookTime = 30 ∧ (s.cookingPrograms 0).coolTime = 0 ∧
      (s.cookingPrograms 0).repetitions = 1)
    (hB : (s.cookingPrograms 1).cookTime = 20 ∧ (s.cookingPrograms 1).coolTime = 10 ∧
      (s.cookingPrograms 1).repetitions = 5) :
    ((∀ n, n < 32 →
        (run (loop s (Input.uniform true 'A' t)) (engineTicks n t)).currentState = .COOKING) ∧
     (run (loop s (Input.uniform true 'A' t)) (engineTicks 32 t)).currentState = .WAITING ∧
     ∃ v m, (enterFinished v m).currentState = .FINISHED ∧
       handleCurrentState
           (doorRule (run (loop s (Input.uniform true 'A' t)) (engineTicks 31 t)) true)
           NO_KEY true (t + 32000) (t + 32000) =
         resetAfterCooking (enterFinished v m) (t + 32000)) ∧
    ((∀ n, n < 170 →
        (run (loop s (Input.uniform true 'B' t)) (engineTicks n t)).currentState = .COOKING) ∧
     (run (loop s (Input.uniform true 'B' t)) (engineTicks 170 t)).currentState = .WAITING ∧
     ∃ v m, (enterFinished v m).currentState = .FINISHED ∧
       handleCurrentState
           (doorRule (run (loop s (Input.uniform true 'B' t)) (engineTicks 169 t)) true)
           NO_KEY true (t + 170000) (t + 170000) =
         resetAfterCooking (enterFinished v m) (t + 170000)) := by
  obtain ⟨a1, a2, a3⟩ := hA
  obtain ⟨b1, b2, b3⟩ := hB
  have hA := started_slot_duration s t 'A' 0 31 hs (by decide) (by rw [a1]; decide)
    (by rw [a2]) (by rw [a3]) (by rw [a1, a2, a3]; decide)
  have hB := started_slot_duration s t 'B' 1 169 hs (by decide) (by rw [b1]; decide)
    (by rw [b2]; decide) (by rw [b3]; decide) (by rw [b1, b2, b3]; decide)
  exact ⟨⟨fun n hn => hA.1 n (by omega), hA.2.1, hA.2.2⟩,
    ⟨fun n hn => hB.1 n (by omega), hB.2.1, hB.2.2⟩⟩

/-- C5 amended, instance: the state left by `setup`, keys pressed at clock 0. -/
theorem C5_preset_durations_witness :
    setup.currentState = .WAITING ∧
    (run (started 'A') (engineTicks 31 0)).currentState = .COOKING ∧
    (run (started 'A') (engineTicks 32 0)).currentState = .WAITING ∧
    (run (started 'B') (engineTicks 169 0)).currentState = .COOKING ∧
    (run (started 'B') (engineTicks 170 0)).currentState = .WAITING :=
  have h := C5_preset_durations setup 0 (by decide) (by decide) (by decide)
  ⟨by decide, h.1.1 31 (by omega), h.1.2.1, h.2.1 169 (by omega), h.2.2.1⟩

/-! ## Quick cook and program keys (C6, C7) -/

/-- Key `0` in mode `WAITING` is ignored by the handler. -/
theorem loop_waiting_zero (s : State) (i : Input)
    (hs : s.currentState = .WAITING) (hd : i.doorLoop = true) (hk : i.key = '0') :
    SameCore (loop s i) (ensureScreen s) := by
  have hc := loop_core s i
  rw [hd, doorRule_closed s (by simp [hs]), hk, checkCancel_other _ _ _ (by decide)] at hc
  have hh : handleCurrentState s '0' i.doorHandler i.msHandler i.msFinish = ensureScreen s := by
    unfold handleCurrentState
    simp only []
    have hm : (ensureScreen s).currentState = .WAITING := by
      rw [ensureScreen_eq]; exact hs
    rw [hm]
    simp only []
    unfold handleWaitingState
    rw [if_neg (by decide), if_neg (by decide), dif_neg (by decide), if_neg (by decide)]
  rw [hh] at hc
  exact hc

/-- C6. In mode `WAITING` (Idle) with the door sampled closed: for every digit
key `1`..`9` (character code `48 + d` with `1 ≤ d ≤ 9`) the pass ends in mode
`COOKING` with phase heating, remaining cook seconds `d`, remaining cool
seconds 0, remaining repetitions 1 and source program index -1 (no slot); key
`0` starts nothing: the mode stays `WAITING` and the session variables keep
their values. -/
theorem C6_quick_cook (s : State) (i : Input)
    (hs : s.currentState = .WAITING) (hd : i.doorLoop = true) :
    (∀ d : Nat, 1 ≤ d → d ≤ 9 → i.key.toNat = 48 + d →
      (loop s i).currentState = .COOKING ∧
      (loop s i).currentStep = 0 ∧
      (loop s i).currentCookTime = (d : Int) ∧
      (loop s i).currentCoolTime = 0 ∧
      (loop s i).currentRepetitions = 1 ∧
      (loop s i).currentProgramIndex = -1) ∧
    (i.key = '0' →
      (loop s i).currentState = .WAITING ∧
      (loop s i).currentStep = s.currentStep ∧
      (loop s i).currentCookTime = s.currentCookTime ∧
      (loop s i).currentCoolTime = s.currentCoolTime ∧
      (loop s i).currentRepetitions = s.currentRepetitions ∧
      (loop s i).currentProgramIndex = s.currentProgramIndex) := by
  constructor
  · intro d h1 h9 hk
    obtain ⟨a1, -, a3, a4, a5, a6, a7, -⟩ := loop_start_quick s i hs hd (by omega)
    refine ⟨a1, a3, ?_, a6, a7, a4⟩
    rw [a5, hk]
    push_cast
    ring
  · intro hk
    obtain ⟨c1, -, c3, c4, c5, c6, c7, -⟩ := loop_waiting_zero s i hs hd hk
    rw [ensureScreen_eq] at c1 c3 c4 c5 c6 c7
    exact ⟨c1.trans hs, c6, c3, c4, c5, c7⟩

/-- C6, instance: key `5` in the state left by `setup` gives cook 5, cool 0,
1 repetition, no source slot. -/
theorem C6_quick_cook_witness :
    setup.currentState = .WAITING ∧
    (loop setup (Input.uniform true '5' 0)).currentState = .COOKING ∧
    (loop setup (Input.uniform true '5' 0)).currentStep = 0 ∧
    (loop setup (Input.uniform true '5' 0)).currentCookTime = 5 ∧
    (loop setup (Input.uniform true '5' 0)).currentCoolTime = 0 ∧
    (loop setup (Input.uniform true '5' 0)).currentRepetitions = 1 ∧
    (loop setup (Input.uniform true '5' 0)).currentProgramIndex = -1 :=
  ⟨by decide,
   (C6_quick_cook setup (Input.uniform true '5' 0) (by decide) rfl).1 5 (by decide)
     (by decide) (by decide)⟩

/-- C7. In mode `WAITING` (Idle) with the door sampled closed, for every key
`A`..`D` (character code `65 + j`, `j` the slot index 0..3) the pass ends in
mode `COOKING` with phase heating, source program index `j`, remaining cook
seconds the slot's `cookTime`, remaining cool seconds the slot's `coolTime`
and remaining repetitions `max 1` of the slot's `repetitions`; the timer
baseline is the clock of this pass, so no countdown step is applied in it. -/
theorem C7_program_key_starts_slot (s : State) (i : Input) (j : Fin 4)
    (hs : s.currentState = .WAITING) (hd : i.doorLoop = true)
    (hk : i.key.toNat = 65 + j.val) :
    (loop s i).currentState = .COOKING ∧
    (loop s i).currentStep = 0 ∧
    (loop s i).currentProgramIndex = (j.val : Int) ∧
    (loop s i).currentCookTime = (s.cookingPrograms j).cookTime ∧
    (loop s i).currentCoolTime = (s.cookingPrograms j).coolTime ∧
    (loop s i).currentRepetitions = max 1 (s.cookingPrograms j).repetitions ∧
    (loop s i).lastTimerUpdate = millis i.msHandler := by
  obtain ⟨a1, -, a3, a4, a5, a6, a7, -, -, -, a11, -⟩ := loop_start_program s i j hs hd hk
  exact ⟨a1, a3, a4, a5, a6, a7, a11⟩

/-- C7, instance: key `C` in the state left by `setup` starts slot 2 with
cook 15, cool 3 and 3 repetitions. -/
theorem C7_program_key_starts_slot_witness :
    setup.currentState = .WAITING ∧ (Input.uniform true 'C' 40).key.toNat = 65 + 2 ∧
    (loop setup (Input.uniform true 'C' 40)).currentState = .COOKING ∧
    (loop setup (Input.uniform true 'C' 40)).currentProgramIndex = 2 ∧
    (loop setup (Input.uniform true 'C' 40)).currentCookTime = 15 ∧
    (loop setup (Input.uniform true 'C' 40)).currentCoolTime = 3 ∧
    (loop setup (Input.uniform true 'C' 40)).currentRepetitions = 3 :=
  have h := C7_program_key_starts_slot setup (Input.uniform true 'C' 40) 2 (by decide) rfl
    (by decide)
  ⟨by decide, by decide, h.1, h.2.2.1, h.2.2.2.1.trans (by decide),
   h.2.2.2.2.1.trans (by decide), h.2.2.2.2.2.1.trans (by decide)⟩

/-! ## The configuration wizard (C8, C9, C10) -/

/-- In mode `CONFIGURING` with the door closed and a key other than `*`, the
pass is one run of the configuring handler. -/
theorem loop_configuring_core (s : State) (i : Input)
    (hs : s.currentState = .CONFIGURING) (hd : i.doorLoop = true) (hk : i.key ≠ '*') :
    SameCore (loop s i) (configKey (configPrompt (ensureScreen s)) i.key) := by
  have hc := loop_core s i
  rw [hd, doorRule_closed s (by simp [hs]), checkCancel_other _ _ _ hk] at hc
  have hh : handleCurrentState s i.key i.doorHandler i.msHandler i.msFinish =
      configKey (configPrompt (ensureScreen s)) i.key := by
    unfold handleCurrentState
    simp only []
    have hm : (ensureScreen s).currentState = .CONFIGURING := by
      rw [ensureScreen_eq]; exact hs
    rw [hm]
    simp only []
    rfl
  rw [hh] at hc
  exact hc

/-- The first-pass block leaves mode, step, committed values and slots alone,
clears the first-entry flag, and empties the buffer exactly when the flag was
set. -/
theorem configPrompt_fields (u : State) :
    (configPrompt u).currentState = u.currentState ∧
    (configPrompt u).configStep = u.configStep ∧
    (configPrompt u).cookTime = u.cookTime ∧
    (configPrompt u).coolTime = u.coolTime ∧
    (configPrompt u).repetitions = u.repetitions ∧
    (configPrompt u).cookingPrograms = u.cookingPrograms ∧
    (configPrompt u).configFirstTime = false ∧
    (configPrompt u).configInput = (if u.configFirstTime then [] else u.configInput) := by
  unfold configPrompt
  by_cases h : u.configFirstTime = true
  · simp [h]
  · simp [h]

/-- The first-pass block after the screen refresh, in terms of the state at
the start of the handler. -/
theorem configPrompt_ensureScreen (s : State) :
    (configPrompt (ensureScreen s)).currentState = s.currentState ∧
    (configPrompt (ensureScreen s)).configStep = s.configStep ∧
    (configPrompt (ensureScreen s)).cookTime = s.cookTime ∧
    (configPrompt (ensureScreen s)).coolTime = s.coolTime ∧
    (configPrompt (ensureScreen s)).repetitions = s.repetitions ∧
    (configPrompt (ensureScreen s)).cookingPrograms = s.cookingPrograms ∧
    (configPrompt (ensureScreen s)).configFirstTime = false ∧
    (configPrompt (ensureScreen s)).configInput =
      (if s.configFirstTime then [] else s.configInput) := by
  obtain ⟨p1, p2, p3, p4, p5, p6, p7, p8⟩ := configPrompt_fields (ensureScreen s)
  have e1 : (ensureScreen s).currentState = s.currentState := by rw [ensureScreen_eq]
  have e2 : (ensureScreen s).configStep = s.configStep := by rw [ensureScreen_eq]
  have e3 : (ensureScreen s).cookTime = s.cookTime := by rw [ensureScreen_eq]
  have e4 : (ensureScreen s).coolTime = s.coolTime := by rw [ensureScreen_eq]
  have e5 : (ensureScreen s).repetitions = s.repetitions := by rw [ensureScreen_eq]
  have e6 : (ensureScreen s).cookingPrograms = s.cookingPrograms := by rw [ensureScreen_eq]
  have e7 : (ensureScreen s).configFirstTime = s.configFirstTime := by rw [ensureScreen_eq]
  have e8 : (ensureScreen s).configInput = s.configInput := by rw [ensureScreen_eq]
  rw [e7, e8] at p8
  exact ⟨p1.trans e1, p2.trans e2, p3.trans e3, p4.trans e4, p5.trans e5, p6.trans e6, p7, p8⟩

/-- Key `#` at a step other than `CONFIG_DONE` with an empty buffer. -/
theorem configKey_hash_empty (u : State) (hstep : u.configStep ≠ .CONFIG_DONE)
    (he : u.configInput = []) :
    configKey u '#' =
      { u with
        trace := u.trace ++ [.lcdSetCursor 0 1, .lcdPrint "Enter a value   ", .delay 1000],
        configFirstTime := true } := by
  unfold configKey
  rw [if_neg (by decide), if_neg (by decide), if_pos rfl, if_pos hstep, if_pos (by simp [he])]

/-- Key `#` at step `SET_COOK_TIME` with a non-empty buffer whose value is not
positive. -/
theorem configKey_hash_rejected (u : State) (hstep : u.configStep = .SET_COOK_TIME)
    (hne : u.configInput ≠ []) (hv : toInt u.configInput ≤ 0) :
    configKey u '#' =
      { u with
        trace := u.trace ++ [.lcdSetCursor 0 1, .lcdPrint "Debe mas que 0  ", .delay 1000],
        configFirstTime := true } := by
  unfold configKey
  rw [if_neg (by decide), if_neg (by decide), if_pos rfl, if_pos (by simp [hstep]),
    if_neg (by simpa using hne)]
  simp only []
  rw [if_pos ⟨hstep, hv⟩]

/-- Key `#` at a step other than `CONFIG_DONE` with a non-empty buffer whose
value passes the validation. -/
theorem configKey_hash_accepted (u : State) (hstep : u.configStep ≠ .CONFIG_DONE)
    (hne : u.configInput ≠ [])
    (hv : u.configStep = .SET_COOK_TIME → 0 < toInt u.configInput) :
    configKey u '#' =
      { commitValue u (toInt u.configInput) with
        configStep := (commitValue u (toInt u.configInput)).configStep.next,
        configFirstTime := true } := by
  unfold configKey
  rw [if_neg (by decide), if_neg (by decide), if_pos rfl, if_pos hstep,
    if_neg (by simpa using hne)]
  simp only []
  rw [if_neg (by
    rintro ⟨h1, h2⟩
    have := hv h1
    omega)]

/-- C8. In mode `CONFIGURING` at step `SET_COOK_TIME`, with an input buffer of
1 to 4 digits whose parsed value is 0 (the buffer the handler examines at line
328: the variable `configInput`, the first-entry flag being clear), a pass with
the door closed and key `#` is rejected: the mode is still `CONFIGURING`, the
step is still `SET_COOK_TIME`, slot D's cook time, all four slots and the
committed draft values are unchanged, and the input buffer is cleared: the
first-entry flag is set, so the buffer the handler examines from now on is
empty, its first-pass block emptying the variable before any key is
processed. -/
theorem C8_zero_cook_time_rejected (s : State) (i : Input)
    (hs : s.currentState = .CONFIGURING) (hstep : s.configStep = .SET_COOK_TIME)
    (hlen : 1 ≤ (if s.configFirstTime then [] else s.configInput).length ∧
      (if s.configFirstTime then [] else s.configInput).length ≤ 4)
    (hdig : ∀ c ∈ (if s.configFirstTime then [] else s.configInput), isDigitKey c = true)
    (hv : toInt (if s.configFirstTime then [] else s.configInput) = 0)
    (hd : i.doorLoop = true) (hk : i.key = '#') :
    (loop s i).currentState = .CONFIGURING ∧
    (loop s i).configStep = .SET_COOK_TIME ∧
    ((loop s i).cookingPrograms 3).cookTime = (s.cookingPrograms 3).cookTime ∧
    (loop s i).cookingPrograms = s.cookingPrograms ∧
    ((loop s i).cookTime = s.cookTime ∧ (loop s i).coolTime = s.coolTime ∧
      (loop s i).repetitions = s.repetitions) ∧
    (loop s i).configFirstTime = true ∧
    (if (loop s i).configFirstTime then [] else (loop s i).configInput) = [] ∧
    (configPrompt (ensureScreen (loop s i))).configInput = [] := by
  have hf : s.configFirstTime = false := by
    cases hft : s.configFirstTime with
    | false => rfl
    | true =>
      rw [hft] at hlen
      simp at hlen
  rw [hf] at hlen hv
  simp only [Bool.false_eq_true, if_false] at hlen hv
  have hc := loop_configuring_core s i hs hd (by rw [hk]; decide)
  rw [hk] at hc
  obtain ⟨p1, p2, p3, p4, p5, p6, -, p8⟩ := configPrompt_ensureScreen s
  rw [hf] at p8
  have p8' : (configPrompt (ensureScreen s)).configInput = s.configInput := by
    simpa using p8
  have hne : s.configInput ≠ [] := by
    intro h
    rw [h] at hlen
    simp at hlen
  rw [configKey_hash_rejected _ (p2.trans hstep) (by rw [p8']; exact hne)
    (by rw [p8', hv])] at hc
  obtain ⟨c1, -, -, -, -, -, -, -, c9, c10, c11, c12, c13, -, c15, -⟩ := hc
  simp only [] at c1 c9 c10 c11 c12 c13 c15
  have hslots : (loop s i).cookingPrograms = s.cookingPrograms := c15.trans p6
  refine ⟨c1.trans (p1.trans hs), c12.trans (p2.trans hstep), by rw [hslots], hslots,
    ⟨c9.trans p3, c10.trans p4, c11.trans p5⟩, c13, ?_, ?_⟩
  · rw [c13]
    rfl
  · rw [(configPrompt_ensureScreen (loop s i)).2.2.2.2.2.2.2, c13]
    rfl

/-- C8, instance: "0" typed at step `SET_COOK_TIME`, then `#`: the step is
still `SET_COOK_TIME`, the first-entry flag is set and the handler finds an
empty buffer. -/
theorem C8_zero_cook_time_rejected_witness :
    (run setup [Input.uniform true '#' 0, Input.uniform true '0' 100]).configInput = ['0'] ∧
    (run setup [Input.uniform true '#' 0, Input.uniform true '0' 100]).configFirstTime
      = false ∧
    toInt ['0'] = 0 ∧
    (loop (run setup [Input.uniform true '#' 0, Input.uniform true '0' 100])
      (Input.uniform true '#' 200)).configStep = .SET_COOK_TIME ∧
    (loop (run setup [Input.uniform true '#' 0, Input.uniform true '0' 100])
      (Input.uniform true '#' 200)).configFirstTime = true ∧
    (configPrompt (ensureScreen (loop (run setup [Input.uniform true '#' 0,
      Input.uniform true '0' 100]) (Input.uniform true '#' 200)))).configInput = [] :=
  have h := C8_zero_cook_time_rejected
    (run setup [Input.uniform true '#' 0, Input.uniform true '0' 100])
    (Input.uniform true '#' 200) (by decide!) (by decide!) (by decide!) (by decide!)
    (by decide!) rfl rfl
  ⟨by decide!, by decide!, by decide!, h.2.1, h.2.2.2.2.2.1, h.2.2.2.2.2.2.2⟩

/-- What `commitValue` writes: the draft field and slot D's field of the
current step; the other two fields of slot D, its label and the slots A, B, C
are left alone. -/
theorem commitValue_fields (u : State) (v : Int) :
    (commitValue u v).currentState = u.currentState ∧
    (commitValue u v).configStep = u.configStep ∧
    (∀ j : Fin 4, j ≠ 3 → (commitValue u v).cookingPrograms j = u.cookingPrograms j) ∧
    ((commitValue u v).cookingPrograms 3).label = (u.cookingPrograms 3).label ∧
    (u.configStep = .SET_COOK_TIME →
      (commitValue u v).cookTime = v ∧
      ((commitValue u v).cookingPrograms 3).cookTime = v ∧
      ((commitValue u v).cookingPrograms 3).coolTime = (u.cookingPrograms 3).coolTime ∧
      ((commitValue u v).cookingPrograms 3).repetitions = (u.cookingPrograms 3).repetitions) ∧
    (u.configStep = .SET_COOL_TIME →
      (commitValue u v).coolTime = v ∧
      ((commitValue u v).cookingPrograms 3).coolTime = v ∧
      ((commitValue u v).cookingPrograms 3).cookTime = (u.cookingPrograms 3).cookTime ∧
      ((commitValue u v).cookingPrograms 3).repetitions = (u.cookingPrograms 3).repetitions) ∧
    (u.configStep = .SET_REPETITIONS →
      (commitValue u v).repetitions = max 1 v ∧
      ((commitValue u v).cookingPrograms 3).repetitions = max 1 v ∧
      ((commitValue u v).cookingPrograms 3).cookTime = (u.cookingPrograms 3).cookTime ∧
      ((commitValue u v).cookingPrograms 3).coolTime = (u.cookingPrograms 3).coolTime) := by
  unfold commitValue
  cases h : u.configStep <;> simp [h]
  all_goals
    intro j hj
    exact Function.update_noteq hj _ _

/-- C9. In mode `CONFIGURING` at a step other than `CONFIG_DONE`, past the
first pass of the step (first-entry flag clear, so the buffer holds what was
typed), with a non-empty buffer of at most 4 digits whose parsed value is `v`
(`v > 0` at step `SET_COOK_TIME`): a pass with the door closed and key `#`
writes `v` (`max 1 v` at step `SET_REPETITIONS`) into the field of slot D for
the step, and into the draft, advances the step to the next enumeration value,
and leaves the other two fields of slot D and the slots A, B and C unchanged. -/
theorem C9_confirm_commits_value (s : State) (i : Input)
    (hs : s.currentState = .CONFIGURING) (hstep : s.configStep ≠ .CONFIG_DONE)
    (hf : s.configFirstTime = false)
    (hlen : 1 ≤ s.configInput.length ∧ s.configInput.length ≤ 4)
    (hdig : ∀ c ∈ s.configInput, isDigitKey c = true)
    (hv : s.configStep = .SET_COOK_TIME → 0 < toInt s.configInput)
    (hd : i.doorLoop = true) (hk : i.key = '#') :
    (loop s i).currentState = .CONFIGURING ∧
    (loop s i).configStep = s.configStep.next ∧
    (∀ j : Fin 4, j ≠ 3 → (loop s i).cookingPrograms j = s.cookingPrograms j) ∧
    (s.configStep = .SET_COOK_TIME →
      (loop s i).cookTime = toInt s.configInput ∧
      ((loop s i).cookingPrograms 3).cookTime = toInt s.configInput ∧
      ((loop s i).cookingPrograms 3).coolTime = (s.cookingPrograms 3).coolTime ∧
      ((loop s i).cookingPrograms 3).repetitions = (s.cookingPrograms 3).repetitions) ∧
    (s.configStep = .SET_COOL_TIME →
      (loop s i).coolTime = toInt s.configInput ∧
      ((loop s i).cookingPrograms 3).coolTime = toInt s.configInput ∧
      ((loop s i).cookingPrograms 3).cookTime = (s.cookingPrograms 3).cookTime ∧
      ((loop s i).cookingPrograms 3).repetitions = (s.cookingPrograms 3).repetitions) ∧
    (s.configStep = .SET_REPETITIONS →
      (loop s i).repetitions = max 1 (toInt s.configInput) ∧
      ((loop s i).cookingPrograms 3).repetitions = max 1 (toInt s.configInput) ∧
      ((loop s i).cookingPrograms 3).cookTime = (s.cookingPrograms 3).cookTime ∧
      ((loop s i).cookingPrograms 3).coolTime = (s.cookingPrograms 3).coolTime) := by
  have hc := loop_configuring_core s i hs hd (by rw [hk]; decide)
  rw [hk] at hc
  obtain ⟨p1, p2, p3, p4, p5, p6, -, p8⟩ := configPrompt_ensureScreen s
  rw [hf] at p8
  have p8' : (configPrompt (ensureScreen s)).configInput = s.configInput := by simpa using p8
  have hne : s.configInput ≠ [] := by
    intro h
    rw [h] at hlen
    simp at hlen
  rw [configKey_hash_accepted _ (by rw [p2]; exact hstep) (by rw [p8']; exact hne)
    (by rw [p2, p8']; exact hv)] at hc
  obtain ⟨c1, -, -, -, -, -, -, -, c9, c10, c11, c12, -, -, c15, -⟩ := hc
  simp only [] at c1 c9 c10 c11 c12 c15
  obtain ⟨q1, q2, q3, -, q5, q6, q7⟩ :=
    commitValue_fields (configPrompt (ensureScreen s)) (toInt s.configInput)
  rw [p8'] at c1 c9 c10 c11 c12 c15
  rw [p2] at q5 q6 q7
  rw [p6] at q3 q5 q6 q7
  refine ⟨c1.trans (q1.trans (p1.trans hs)), ?_, ?_, ?_, ?_, ?_⟩
  · rw [c12, q2, p2]
  · intro j hj
    rw [c15]
    exact q3 j hj
  · intro h
    obtain ⟨a, b, c, d⟩ := q5 h
    rw [c9, c15]
    exact ⟨a, b, c, d⟩
  · intro h
    obtain ⟨a, b, c, d⟩ := q6 h
    rw [c10, c15]
    exact ⟨a, b, c, d⟩
  · intro h
    obtain ⟨a, b, c, d⟩ := q7 h
    rw [c11, c15]
    exact ⟨a, b, c, d⟩

/-- C9, instance: "45" typed at step `SET_COOK_TIME`, then `#`: the step is
`SET_COOL_TIME` and the cook time of slot D is 45. -/
theorem C9_confirm_commits_value_witness :
    (run setup [Input.uniform true '#' 0, Input.uniform true '4' 100,
      Input.uniform true '5' 200]).configInput = ['4', '5'] ∧
    toInt ['4', '5'] = 45 ∧
    (loop (run setup [Input.uniform true '#' 0, Input.uniform true '4' 100,
      Input.uniform true '5' 200]) (Input.uniform true '#' 300)).configStep
      = .SET_COOL_TIME ∧
    ((loop (run setup [Input.uniform true '#' 0, Input.uniform true '4' 100,
      Input.uniform true '5' 200]) (Input.uniform true '#' 300)).cookingPrograms 3).cookTime
      = 45 :=
  have h := C9_confirm_commits_value
    (run setup [Input.uniform true '#' 0, Input.uniform true '4' 100,
      Input.uniform true '5' 200])
    (Input.uniform true '#' 300) (by decide!) (by decide!) (by decide!) (by decide!)
    (by decide!) (by decide!) rfl rfl
  ⟨by decide!, by decide!, h.2.1.trans (by decide!),
   ((h.2.2.2.1 (by decide!)).2.1).trans (by decide!)⟩

/-- C10. In mode `CONFIGURING` at a step other than `CONFIG_DONE`, a pass with
the door closed and key `#` while the input buffer is empty (the variable is
empty, or the first-entry flag is set so that the handler empties it before it
looks at the key) does not advance the step and leaves the mode
(`CONFIGURING`), the committed draft values and all four program slots
unchanged. -/
theorem C10_confirm_with_empty_buffer (s : State) (i : Input)
    (hs : s.currentState = .CONFIGURING) (hstep : s.configStep ≠ .CONFIG_DONE)
    (he : s.configFirstTime = true ∨ s.configInput = [])
    (hd : i.doorLoop = true) (hk : i.key = '#') :
    (loop s i).configStep = s.configStep ∧
    (loop s i).currentState = .CONFIGURING ∧
    ((loop s i).cookTime = s.cookTime ∧ (loop s i).coolTime = s.coolTime ∧
      (loop s i).repetitions = s.repetitions) ∧
    (loop s i).cookingPrograms = s.cookingPrograms := by
  have hc := loop_configuring_core s i hs hd (by rw [hk]; decide)
  rw [hk] at hc
  obtain ⟨p1, p2, p3, p4, p5, p6, -, p8⟩ := configPrompt_ensureScreen s
  have p8' : (configPrompt (ensureScreen s)).configInput = [] := by
    rw [p8]
    rcases he with he | he
    · simp [he]
    · simp [he]
  rw [configKey_hash_empty _ (by rw [p2]; exact hstep) p8'] at hc
  obtain ⟨c1, -, -, -, -, -, -, -, c9, c10, c11, c12, -, -, c15, -⟩ := hc
  simp only [] at c1 c9 c10 c11 c12 c15
  exact ⟨c12.trans p2, c1.trans (p1.trans hs), ⟨c9.trans p3, c10.trans p4, c11.trans p5⟩,
    c15.trans p6⟩

/-- C10, instance: `#` pressed twice in a row from the state left by `setup`;
the second `#` finds the wizard at step `SET_COOK_TIME` with nothing typed. -/
theorem C10_confirm_with_empty_buffer_witness :
    (loop setup (Input.uniform true '#' 0)).currentState = .CONFIGURING ∧
    (loop (loop setup (Input.uniform true '#' 0)) (Input.uniform true '#' 100)).configStep
      = .SET_COOK_TIME ∧
    (loop (loop setup (Input.uniform true '#' 0)) (Input.uniform true '#' 100)).currentState
      = .CONFIGURING :=
  have h := C10_confirm_with_empty_buffer (loop setup (Input.uniform true '#' 0))
    (Input.uniform true '#' 100) (by decide!) (by decide!) (Or.inl (by decide!)) rfl rfl
  ⟨by decide!, h.1.trans (by decide!), h.2.1⟩

/-! ## Ring and tone renderers (C14, C16, C18) -/

theorem elapsed_self (ms : Nat) : elapsed (millis ms) (millis ms) = 0 := by
  unfold elapsed millis ULONG
  omega

/-- With the door closed and the mode not `COOKING` the ring renderer empties
the pixel buffer and sends nothing to the LEDs. -/
theorem updatePlatePattern_not_cooking (s : State) (ms : Nat)
    (h : s.currentState ≠ .COOKING) :
    updatePlatePattern s true ms = { s with ringPixels := ringOff } := by
  unfold updatePlatePattern
  simp [h]

theorem updateRotatingPattern_idle (u : State) (ms : Nat)
    (h : elapsed (millis ms) u.lastUpdate < updateInterval) :
    updateRotatingPattern u ms = u := by
  unfold updateRotatingPattern
  rw [if_neg (Nat.not_le.mpr h)]

theorem updateRotatingPattern_lastUpdate (s : State) (ms : Nat) :
    elapsed (millis ms) (updateRotatingPattern s ms).lastUpdate < updateInterval := by
  unfold updateRotatingPattern
  by_cases h : updateInterval ≤ elapsed (millis ms) s.lastUpdate
  · rw [if_pos h]
    simp only []
    rw [elapsed_self]
    decide
  · rw [if_neg h]
    exact Nat.not_le.mp h

theorem updateRotatingPattern_twice (s : State) (ms : Nat) :
    (updateRotatingPattern { updateRotatingPattern s ms with ringPixels := ringOff } ms).ringShown
      = (updateRotatingPattern s ms).ringShown := by
  rw [updateRotatingPattern_idle { updateRotatingPattern s ms with ringPixels := ringOff } ms
    (updateRotatingPattern_lastUpdate s ms)]

theorem updateBlinkingPattern_idle (u : State) (ms : Nat)
    (h : elapsed (millis ms) u.previousMillis <
      (if u.ledsOn then onDuration else offDuration)) :
    updateBlinkingPattern u ms = u := by
  unfold updateBlinkingPattern
  by_cases hl : u.ledsOn = true
  · rw [if_pos hl] at h
    rw [if_pos hl, if_neg (Nat.not_le.mpr h)]
  · rw [if_neg hl] at h
    rw [if_neg hl, if_neg (Nat.not_le.mpr h)]

theorem updateBlinkingPattern_previousMillis (s : State) (ms : Nat) :
    elapsed (millis ms) (updateBlinkingPattern s ms).previousMillis <
      (if (updateBlinkingPattern s ms).ledsOn then onDuration else offDuration) := by
  unfold updateBlinkingPattern
  by_cases hl : s.ledsOn = true
  · by_cases h : onDuration ≤ elapsed (millis ms) s.previousMillis
    · rw [if_pos hl, if_pos h]
      simp only []
      rw [elapsed_self]
      simp [offDuration]
    · rw [if_pos hl, if_neg h, if_pos hl]
      exact Nat.not_le.mp h
  · by_cases h : offDuration ≤ elapsed (millis ms) s.previousMillis
    · rw [if_neg hl, if_pos h]
      simp only []
      rw [elapsed_self]
      simp [onDuration]
    · rw [if_neg hl, if_neg h, if_neg hl]
      exact Nat.not_le.mp h

theorem updateBlinkingPattern_twice (s : State) (ms : Nat) :
    (updateBlinkingPattern { updateBlinkingPattern s ms with ringPixels := ringOff } ms).ringShown
      = (updateBlinkingPattern s ms).ringShown := by
  rw [updateBlinkingPattern_idle { updateBlinkingPattern s ms with ringPixels := ringOff } ms
    (updateBlinkingPattern_previousMillis s ms)]

/-- The frame on the LEDs after two calls of the ring renderer with the same
door sample and clock value is the frame after the first call. -/
theorem updatePlatePattern_twice (s : State) (door : Bool) (ms : Nat) :
    (updatePlatePattern (updatePlatePattern s door ms) door ms).ringShown
      = (updatePlatePattern s door ms).ringShown := by
  have hm : (updatePlatePattern s door ms).currentState = s.currentState :=
    (updatePlatePattern_core s door ms).1
  have hp : (updatePlatePattern s door ms).currentStep = s.currentStep :=
    (updatePlatePattern_core s door ms).2.2.2.2.2.1
  cases door with
  | false => simp [updatePlatePattern]
  | true =>
    by_cases hc : s.currentState = .COOKING
    · by_cases h0 : s.currentStep = 0
      · have e : ∀ u : State, u.currentState = .COOKING → u.currentStep = 0 →
            updatePlatePattern u true ms =
              updateRotatingPattern { u with ringPixels := ringOff } ms := by
          intro u h1 h2
          simp [updatePlatePattern, h1, h2]
        rw [e _ (hm.trans hc) (hp.trans h0), e s hc h0]
        have := updateRotatingPattern_twice { s with ringPixels := ringOff } ms
        simpa using this
      · by_cases h1 : s.currentStep = 1
        · have e : ∀ u : State, u.currentState = .COOKING → u.currentStep = 1 →
              updatePlatePattern u true ms =
                updateBlinkingPattern { u with ringPixels := ringOff } ms := by
            intro u h1 h2
            simp [updatePlatePattern, h1, h2]
          rw [e _ (hm.trans hc) (hp.trans h1), e s hc h1]
          have := updateBlinkingPattern_twice { s with ringPixels := ringOff } ms
          simpa using this
        · have e : ∀ u : State, u.currentState = .COOKING → u.currentStep ≠ 0 →
              u.currentStep ≠ 1 →
              updatePlatePattern u true ms = { u with ringPixels := ringOff } := by
            intro u h1 h2 h3
            simp [updatePlatePattern, h1, h2, h3]
          rw [e _ (hm.trans hc) (by rw [hp]; exact h0) (by rw [hp]; exact h1), e s hc h0 h1]
    · rw [updatePlatePattern_not_cooking _ _ (by rw [hm]; exact hc),
        updatePlatePattern_not_cooking _ _ hc]

/-- The state left by the tone renderer, door closed: the phase is recorded, the
mute window is still running whenever the sound is not enabled, and the buzzer
follows the sound flag. -/
theorem updateBuzzer_post (s : State) (ms : Nat) :
    (updateBuzzer s ms true).currentStep = (updateBuzzer s ms true).lastStep ∧
    ((updateBuzzer s ms true).currentState = .COOKING →
      ((updateBuzzer s ms true).phaseSoundEnabled = false →
        elapsed (millis ms) (updateBuzzer s ms true).phaseStartTime < 1000) ∧
      (updateBuzzer s ms true).buzzer =
        (if (updateBuzzer s ms true).phaseSoundEnabled then
           (if (updateBuzzer s ms true).currentStep = 0 then some HEATING_TONE
            else some COOLING_TONE)
         else none) ∧
      (updateBuzzer s ms true).beepCounter = 0) ∧
    ((updateBuzzer s ms true).currentState ≠ .COOKING →
      (updateBuzzer s ms true).buzzer = none) := by
  unfold updateBuzzer
  by_cases hl : s.currentStep = s.lastStep
  · cases hm : s.currentState <;> simp [hl, hm]
    by_cases he : s.phaseSoundEnabled = true
    · simp [he, hl, hm]
    · by_cases ht : 1000 ≤ elapsed (millis ms) s.phaseStartTime
      · simp [he, ht, hl, hm]
      · simp [he, ht, hl, hm]
        omega
  · cases hm : s.currentState <;> simp [hl, hm, elapsed_self]

/-- A state in which the phase is recorded, the mute window is still running
whenever the sound is not enabled and the buzzer follows the sound flag is left
as it is by the tone renderer. -/
theorem updateBuzzer_fixed (u : State) (ms : Nat)
    (h1 : u.currentStep = u.lastStep)
    (h2 : u.currentState = .COOKING →
      (u.phaseSoundEnabled = false → elapsed (millis ms) u.phaseStartTime < 1000) ∧
      u.buzzer =
        (if u.phaseSoundEnabled then
           (if u.currentStep = 0 then some HEATING_TONE else some COOLING_TONE)
         else none) ∧
      u.beepCounter = 0)
    (h3 : u.currentState ≠ .COOKING → u.buzzer = none) :
    updateBuzzer u ms true = u := by
  by_cases hm : u.currentState = .COOKING
  · obtain ⟨a1, a2, a3⟩ := h2 hm
    have hcond : ¬ (u.phaseSoundEnabled = false ∧
        1000 ≤ elapsed (millis ms) u.phaseStartTime) := by
      rintro ⟨c1, c2⟩
      have := a1 c1
      omega
    have e : updateBuzzer u ms true =
        { u with
          buzzer := if u.phaseSoundEnabled then
                      (if u.currentStep = 0 then some HEATING_TONE else some COOLING_TONE)
                    else none,
          beepCounter := 0 } := by
      simp [updateBuzzer, h1, hm, hcond]
    rw [e, ← a2, ← a3]
  · have a := h3 hm
    have e : updateBuzzer u ms true = { u with buzzer := none } := by
      simp [updateBuzzer, h1]
    rw [e, ← a]

/-- The state after two calls of the tone renderer with the same clock value
and door sample is the state after the first call. -/
theorem updateBuzzer_twice (s : State) (ms : Nat) (door : Bool) :
    updateBuzzer (updateBuzzer s ms door) ms door = updateBuzzer s ms door := by
  cases door with
  | false => simp [updateBuzzer]
  | true =>
    obtain ⟨h1, h2, h3⟩ := updateBuzzer_post s ms
    exact updateBuzzer_fixed _ ms h1 h2 h3

/-- C14. For every state, door sample and clock value: after a second call of
the ring renderer `updatePlatePattern` with the same door sample and clock
value (mode and phase are not changed by the renderer) the frame on the LED
ring is the frame left by the first call; after a second call of the tone
renderer `updateBuzzer` the buzzer output is the output left by the first
call. -/
theorem C14_renderers_idempotent (s : State) (door : Bool) (ms : Nat) :
    ((updatePlatePattern s door ms).currentState = s.currentState ∧
     (updatePlatePattern s door ms).currentStep = s.currentStep ∧
     (updatePlatePattern (updatePlatePattern s door ms) door ms).ringShown
       = (updatePlatePattern s door ms).ringShown) ∧
    ((updateBuzzer s ms door).currentState = s.currentState ∧
     (updateBuzzer s ms door).currentStep = s.currentStep ∧
     (updateBuzzer (updateBuzzer s ms door) ms door).buzzer
       = (updateBuzzer s ms door).buzzer) := by
  refine ⟨⟨(updatePlatePattern_core s door ms).1,
    (updatePlatePattern_core s door ms).2.2.2.2.2.1, updatePlatePattern_twice s door ms⟩,
    ⟨(updateBuzzer_core s ms door).1, (updateBuzzer_core s ms door).2.2.2.2.2.1, ?_⟩⟩
  rw [updateBuzzer_twice]

/-- What the tone renderer leaves on the buzzer. -/
theorem updateBuzzer_output (s : State) (ms : Nat) (door : Bool) :
    (updateBuzzer s ms door).buzzer = none ∨
    (door = true ∧ s.currentState = .COOKING ∧
      (updateBuzzer s ms door).buzzer =
        some (if s.currentStep = 0 then HEATING_TONE else COOLING_TONE)) := by
  cases door with
  | false => left; simp [updateBuzzer]
  | true =>
    obtain ⟨-, h2, h3⟩ := updateBuzzer_post s ms
    have hm : (updateBuzzer s ms true).currentState = s.currentState :=
      (updateBuzzer_core s ms true).1
    have hp : (updateBuzzer s ms true).currentStep = s.currentStep :=
      (updateBuzzer_core s ms true).2.2.2.2.2.1
    rw [hm] at h2 h3
    rw [hp] at h2
    by_cases hc : s.currentState = .COOKING
    · obtain ⟨-, a2, -⟩ := h2 hc
      cases he : (updateBuzzer s ms true).phaseSoundEnabled with
      | false =>
        left
        rw [a2, he]
        rfl
      | true =>
        right
        refine ⟨rfl, hc, ?_⟩
        rw [a2, he]
        by_cases h0 : s.currentStep = 0
        · simp [h0]
        · simp [h0]
    · left
      exact h3 hc

/-- C16. After every call of the tone renderer `updateBuzzer`: if the buzzer
sounds, the door read closed and the mode is `COOKING`, and the frequency is
300 Hz in the heating phase and 600 Hz in the cooling phase, two distinct
values; with the door open, or in any mode other than `COOKING`, the buzzer is
silent. -/
theorem C16_tone_only_while_cooking (s : State) (ms : Nat) (door : Bool) :
    (∀ f, (updateBuzzer s ms door).buzzer = some f →
      door = true ∧ s.currentState = .COOKING ∧
      (s.currentStep = 0 → f = 300) ∧ (s.currentStep = 1 → f = 600)) ∧
    HEATING_TONE = 300 ∧ COOLING_TONE = 600 ∧ HEATING_TONE ≠ COOLING_TONE ∧
    (door = false → (updateBuzzer s ms door).buzzer = none) ∧
    (s.currentState ≠ .COOKING → (updateBuzzer s ms door).buzzer = none) := by
  refine ⟨?_, rfl, rfl, by decide, ?_, ?_⟩
  · intro f hf
    rcases updateBuzzer_output s ms door with h | ⟨h1, h2, h3⟩
    · rw [h] at hf
      cases hf
    · rw [h3] at hf
      injection hf with hf
      refine ⟨h1, h2, ?_, ?_⟩
      · intro h0
        rw [if_pos h0] at hf
        exact hf.symm
      · intro h1'
        rw [if_neg (by omega)] at hf
        exact hf.symm
  · intro hd
    rcases updateBuzzer_output s ms door with h | ⟨h1, -, -⟩
    · exact h
    · rw [hd] at h1
      cases h1
  · intro hm
    rcases updateBuzzer_output s ms door with h | ⟨-, h2, -⟩
    · exact h
    · exact absurd h2 hm

/-- C16, instance: slot B heating, two seconds after the start, door closed:
the buzzer sounds at 300 Hz; with the door open it is silent. -/
theorem C16_tone_only_while_cooking_witness :
    (updateBuzzer (started 'B') 2000 true).buzzer = some 300 ∧
    (started 'B').currentState = .COOKING ∧ (started 'B').currentStep = 0 ∧
    (updateBuzzer (started 'B') 2000 false).buzzer = none :=
  ⟨by decide!,
   ((C16_tone_only_while_cooking (started 'B') 2000 true).1 300 (by decide!)).2.1,
   by decide!,
   (C16_tone_only_while_cooking (started 'B') 2000 false).2.2.2.2.1 rfl⟩

/-- C18 fails on the code.  The door is sampled open in the first pass after
`setup` (the ring shows the all-white frame) and closed in the next pass; the
mode is `WAITING`.  The ring renderer of that pass empties the pixel buffer but
does not call `ring.show()`: the frame on the LEDs is still all white. -/
theorem C18_ring_stays_white_after_door_closes :
    (run setup [Input.uniform false NO_KEY 0]).ringShown = ringWhite ∧
    (run setup [Input.uniform false NO_KEY 0, Input.uniform true NO_KEY 100]).currentState
      = .WAITING ∧
    (run setup [Input.uniform false NO_KEY 0, Input.uniform true NO_KEY 100]).ringPixels
      = ringOff ∧
    (run setup [Input.uniform false NO_KEY 0, Input.uniform true NO_KEY 100]).ringShown
      = ringWhite ∧
    ringWhite ≠ ringOff :=
  ⟨by decide!, by decide!, by decide!, by decide!, by decide⟩

/-! ## Mode transitions of one pass (C12, C13, C20) -/

theorem handleWaitingState_step (u : State) (key : Char) (ms : Nat) (door : Bool)
    (h : u.currentState = .WAITING) : ModeStep u (handleWaitingState u key ms) door := by
  unfold handleWaitingState
  split_ifs
  · exact .same rfl rfl rfl
  · exact .configure h rfl h rfl
  · exact .start h rfl h (le_max_left _ _)
  · exact .start h rfl h (le_max_left _ _)
  · exact .same rfl rfl rfl

theorem configPrompt_modes (u : State) :
    (configPrompt u).currentState = u.currentState ∧
    (configPrompt u).prevState = u.prevState ∧
    (configPrompt u).currentRepetitions = u.currentRepetitions := by
  unfold configPrompt
  split <;> exact ⟨rfl, rfl, rfl⟩

theorem commitValue_modes (u : State) (v : Int) :
    (commitValue u v).currentState = u.currentState ∧
    (commitValue u v).prevState = u.prevState ∧
    (commitValue u v).currentRepetitions = u.currentRepetitions := by
  unfold commitValue
  split <;> exact ⟨rfl, rfl, rfl⟩

theorem configKey_step (u : State) (key : Char) (door : Bool)
    (h : u.currentState = .CONFIGURING) : ModeStep u (configKey u key) door := by
  unfold configKey
  simp only []
  split_ifs
  · exact .same rfl rfl rfl
  · exact .same rfl rfl rfl
  · exact .same rfl rfl rfl
  · exact .same rfl rfl rfl
  · exact .same rfl rfl rfl
  · obtain ⟨a, b, c⟩ := commitValue_modes u (toInt u.configInput)
    exact .same a b c
  · exact .leaveConfig h rfl h rfl
  · exact .same rfl rfl rfl

theorem endRepetition_step (u : State) (m : String) (mf : Nat)
    (h : u.currentState = .COOKING) : ModeStep u (endRepetition u m mf) true := by
  unfold endRepetition
  simp only []
  split
  · rename_i hr
    exact .nextRepetition h rfl h rfl rfl hr
  · rename_i hr
    exact .complete h rfl rfl rfl rfl (by
      show u.currentRepetitions - 1 ≤ 0
      simpa using hr)

theorem timerFired_step_modes (u : State) (now mf : Nat)
    (h : u.currentState = .COOKING) : ModeStep u (timerFired u now mf) true := by
  have lift : ∀ (v : State) (m : String), v.currentState = u.currentState →
      v.prevState = u.prevState → v.currentRepetitions = u.currentRepetitions →
      ModeStep u (endRepetition v m mf) true := by
    intro v m a b c
    have hv : v.currentState = .COOKING := a.trans h
    cases endRepetition_step v m mf hv with
    | same h1 h2 h3 => exact .same (h1.trans a) (h2.trans b) (h3.trans c)
    | configure h0 _ _ _ => rw [hv] at h0; cases h0
    | start h0 _ _ _ => rw [hv] at h0; cases h0
    | leaveConfig h0 _ _ _ => rw [hv] at h0; cases h0
    | pause _ hd _ _ _ => cases hd
    | nextRepetition _ _ h1 h2 h3 h4 => exact .nextRepetition h rfl h1 (h2.trans b) (c ▸ h3) h4
    | complete _ _ h1 h2 h3 h4 => exact .complete h rfl h1 h2 (c ▸ h3) h4
    | resume h0 _ _ _ _ => rw [hv] at h0; cases h0
  unfold timerFired
  simp only []
  split
  · split
    · exact .same rfl rfl rfl
    · split
      · exact .same rfl rfl rfl
      · exact lift _ _ rfl rfl rfl
  · split
    · split
      · exact .same rfl rfl rfl
      · exact lift _ _ rfl rfl rfl
    · exact .same rfl rfl rfl

theorem handleCookingState_step (u : State) (door : Bool) (ms mf : Nat)
    (h : u.currentState = .COOKING) : ModeStep u (handleCookingState u door ms mf) door := by
  unfold handleCookingState
  cases door with
  | false => exact .pause h rfl rfl h rfl
  | true =>
    simp only [Bool.true_eq_false, if_false]
    split
    · exact timerFired_step_modes u _ _ h
    · exact .same rfl rfl rfl

theorem handlePausedState_step (u : State) (door : Bool) (ms : Nat)
    (h : u.currentState = .PAUSED) : ModeStep u (handlePausedState u door ms) door := by
  unfold handlePausedState
  cases door with
  | false => exact .same rfl rfl rfl
  | true => exact .resume h rfl rfl h rfl

/-- The mode dispatcher makes one of the eight transitions of `ModeStep`. -/
theorem handleCurrentState_step (s : State) (key : Char) (door : Bool) (ms mf : Nat) :
    ModeStep s (handleCurrentState s key door ms mf) door := by
  have e1 : (ensureScreen s).currentState = s.currentState := by rw [ensureScreen_eq]
  have e2 : (ensureScreen s).prevState = s.prevState := by rw [ensureScreen_eq]
  have e3 : (ensureScreen s).currentRepetitions = s.currentRepetitions := by
    rw [ensureScreen_eq]
  have lift : ∀ t : State, ModeStep (ensureScreen s) t door → ModeStep s t door := by
    intro t ht
    cases ht with
    | same h1 h2 h3 => exact .same (h1.trans e1) (h2.trans e2) (h3.trans e3)
    | configure h0 h1 h2 h3 => exact .configure (e1 ▸ h0) h1 h2 (h3.trans e3)
    | start h0 h1 h2 h3 => exact .start (e1 ▸ h0) h1 h2 h3
    | leaveConfig h0 h1 h2 h3 => exact .leaveConfig (e1 ▸ h0) h1 h2 (h3.trans e3)
    | pause h0 hd h1 h2 h3 => exact .pause (e1 ▸ h0) hd h1 h2 (h3.trans e3)
    | nextRepetition h0 hd h1 h2 h3 h4 =>
      exact .nextRepetition (e1 ▸ h0) hd h1 (h2.trans e2) (e3 ▸ h3) h4
    | complete h0 hd h1 h2 h3 h4 => exact .complete (e1 ▸ h0) hd h1 h2 (e3 ▸ h3) h4
    | resume h0 hd h1 h2 h3 => exact .resume (e1 ▸ h0) hd h1 h2 (h3.trans e3)
  apply lift
  unfold handleCurrentState
  simp only []
  generalize ensureScreen s = u
  split
  · rename_i hc
    exact handleWaitingState_step u key ms door hc
  · rename_i hc
    unfold handleConfiguringState
    obtain ⟨a, b, c⟩ := configPrompt_modes u
    cases configKey_step (configPrompt u) key door (a.trans hc) with
    | same h1 h2 h3 => exact .same (h1.trans a) (h2.trans b) (h3.trans c)
    | configure h0 _ _ _ => rw [a, hc] at h0; cases h0
    | start h0 _ _ _ => rw [a, hc] at h0; cases h0
    | leaveConfig _ h1 h2 h3 => exact .leaveConfig hc h1 h2 (h3.trans c)
    | pause h0 _ _ _ _ => rw [a, hc] at h0; cases h0
    | nextRepetition h0 _ _ _ _ _ => rw [a, hc] at h0; cases h0
    | complete h0 _ _ _ _ _ => rw [a, hc] at h0; cases h0
    | resume h0 _ _ _ _ => rw [a, hc] at h0; cases h0
  · rename_i hc
    exact handleCookingState_step u door ms mf hc
  · rename_i hc
    exact handlePausedState_step u door ms hc
  · exact .same rfl rfl rfl
  · exact .same rfl rfl rfl

/-- The cancel check leaves the state alone or resets a cancellable mode to
`WAITING`; the remaining repetitions are not touched. -/
theorem checkCancel_step (t : State) (key : Char) (ms : Nat) :
    (checkCancel t key ms = t) ∨
    ((t.currentState = .CONFIGURING ∨ t.currentState = .COOKING ∨
        t.currentState = .PAUSED) ∧
      (checkCancel t key ms).currentState = .WAITING ∧
      (checkCancel t key ms).prevState = .WAITING ∧
      (checkCancel t key ms).currentRepetitions = t.currentRepetitions) := by
  unfold checkCancel
  split_ifs with h1 h2
  · right
    exact ⟨h2, rfl, rfl, rfl⟩
  · left; rfl
  · left; rfl

/-- The door rule: the three cases of lines 209-217, on mode, saved mode and
remaining repetitions. -/
theorem doorRule_step (s : State) (door : Bool) :
    (doorRule s door).currentRepetitions = s.currentRepetitions ∧
    ((door = false ∧ s.currentState ≠ .DOOR_OPEN ∧
        (doorRule s door).currentState = .DOOR_OPEN ∧
        (doorRule s door).prevState = s.currentState) ∨
     (door = true ∧ s.currentState = .DOOR_OPEN ∧
        (doorRule s door).currentState = s.prevState ∧
        (doorRule s door).prevState = s.prevState) ∨
     ((door = false ↔ s.currentState = .DOOR_OPEN) ∧
        (doorRule s door).currentState = s.currentState ∧
        (doorRule s door).prevState = s.prevState)) := by
  unfold doorRule
  cases door <;> by_cases h : s.currentState = .DOOR_OPEN <;> simp [h]

/-! ## `FINISHED` is transient (C13) -/

/-- A pass started outside `FINISHED`, with a saved mode other than `FINISHED`,
ends outside `FINISHED` with a saved mode other than `FINISHED`. -/
theorem loop_not_finished (s : State) (i : Input)
    (h1 : s.currentState ≠ .FINISHED) (h2 : s.prevState ≠ .FINISHED) :
    (loop s i).currentState ≠ .FINISHED ∧ (loop s i).prevState ≠ .FINISHED := by
  obtain ⟨c1, c2, -⟩ := loop_core s i
  rw [c1, c2]
  obtain ⟨-, hd⟩ := doorRule_step s i.doorLoop
  have hu : (doorRule s i.doorLoop).currentState ≠ .FINISHED ∧
      (doorRule s i.doorLoop).prevState ≠ .FINISHED := by
    rcases hd with ⟨-, -, a, b⟩ | ⟨-, -, a, b⟩ | ⟨-, a, b⟩
    · rw [a, b]; exact ⟨by decide, h1⟩
    · rw [a, b]; exact ⟨h2, h2⟩
    · rw [a, b]; exact ⟨h1, h2⟩
  generalize doorRule s i.doorLoop = u at hu
  have ht : (handleCurrentState u i.key i.doorHandler i.msHandler i.msFinish).currentState
        ≠ .FINISHED ∧
      (handleCurrentState u i.key i.doorHandler i.msHandler i.msFinish).prevState
        ≠ .FINISHED := by
    cases handleCurrentState_step u i.key i.doorHandler i.msHandler i.msFinish <;>
      constructor <;> simp_all
  generalize handleCurrentState u i.key i.doorHandler i.msHandler i.msFinish = t at ht
  rcases checkCancel_step t i.key i.msCancel with e | ⟨-, a, b, -⟩
  · rw [e]; exact ht
  · rw [a, b]; exact ⟨by decide, by decide⟩

theorem run_not_finished (inputs : List Input) (s : State)
    (h1 : s.currentState ≠ .FINISHED) (h2 : s.prevState ≠ .FINISHED) :
    (run s inputs).currentState ≠ .FINISHED ∧ (run s inputs).prevState ≠ .FINISHED := by
  induction inputs generalizing s with
  | nil => exact ⟨h1, h2⟩
  | cons i rest ih =>
    obtain ⟨a, b⟩ := loop_not_finished s i h1 h2
    exact ih (loop s i) a b

/-- C13. `FINISHED` is transient.  For every state the appliance can be in and
every input, the state at the end of a pass through `loop` has neither mode nor
saved previous mode `FINISHED`: this holds for every pass started with mode and
saved mode other than `FINISHED`, and every state reachable from `setup` is
such a state.  The only assignment of `FINISHED` is in the completion branch
(`enterFinished`), whose result is reset at once, and every pass whose mode
handler returns from that branch ends in mode `WAITING` (Idle). -/
theorem C13_finished_is_transient :
    (∀ (s : State) (i : Input), s.currentState ≠ .FINISHED → s.prevState ≠ .FINISHED →
      (loop s i).currentState ≠ .FINISHED ∧ (loop s i).prevState ≠ .FINISHED) ∧
    (∀ s : State, Reachable s → s.currentState ≠ .FINISHED ∧ s.prevState ≠ .FINISHED) ∧
    (∀ (v : State) (m : String) (mf : Nat),
      (enterFinished v m).currentState = .FINISHED ∧
      (resetAfterCooking (enterFinished v m) mf).currentState = .WAITING ∧
      (resetAfterCooking (enterFinished v m) mf).prevState = .WAITING) ∧
    (∀ (s : State) (i : Input) (v : State) (m : String),
      handleCurrentState (doorRule s i.doorLoop) i.key i.doorHandler i.msHandler i.msFinish
        = resetAfterCooking (enterFinished v m) i.msFinish →
      (loop s i).currentState = .WAITING) := by
  refine ⟨loop_not_finished, ?_, fun v m mf => ⟨rfl, rfl, rfl⟩, ?_⟩
  · rintro s ⟨inputs, rfl⟩
    exact run_not_finished inputs setup (by decide) (by decide)
  · intro s i v m h
    rw [(loop_core s i).1, h]
    rcases checkCancel_step (resetAfterCooking (enterFinished v m) i.msFinish) i.key
      i.msCancel with e | ⟨-, a, -⟩
    · rw [e]; rfl
    · exact a

/-- C13, instance: the pass that completes quick cook `1` (third engine
tick) ends in `WAITING`, not in `FINISHED`. -/
theorem C13_finished_is_transient_witness :
    (run (started '1') (engineTicks 2 0)).currentState ≠ .FINISHED ∧
    (run (started '1') (engineTicks 2 0)).prevState ≠ .FINISHED ∧
    (loop (run (started '1') (engineTicks 2 0)) (quietPass 3000)).currentState ≠ .FINISHED ∧
    (loop (run (started '1') (engineTicks 2 0)) (quietPass 3000)).prevState ≠ .FINISHED ∧
    (loop (run (started '1') (engineTicks 2 0)) (quietPass 3000)).currentState = .WAITING :=
  ⟨by decide!, by decide!,
   (C13_finished_is_transient.1 (run (started '1') (engineTicks 2 0)) (quietPass 3000)
      (by decide!) (by decide!)).1,
   (C13_finished_is_transient.1 (run (started '1') (engineTicks 2 0)) (quietPass 3000)
      (by decide!) (by decide!)).2,
   by decide!⟩

/-! ## Remaining repetitions of an active session (C12) -/

/-- The invariant on the remaining repetitions: never negative, and at least 1
while a session is active. -/
theorem loop_repetitions (s : State) (i : Input)
    (h0 : 0 ≤ s.currentRepetitions) (h1 : sessionActive s → 1 ≤ s.currentRepetitions) :
    (0 ≤ (loop s i).currentRepetitions ∧
      (sessionActive (loop s i) → 1 ≤ (loop s i).currentRepetitions)) ∧
    ((loop s i).currentRepetitions = s.currentRepetitions ∨
      1 ≤ (loop s i).currentRepetitions ∨
      ((loop s i).currentRepetitions = 0 ∧ s.currentRepetitions = 1 ∧
        (loop s i).currentState = .WAITING)) := by
  obtain ⟨c1, c2, -, -, c5, -⟩ := loop_core s i
  unfold sessionActive at h1 ⊢
  rw [c1, c2, c5]
  obtain ⟨hr, hd⟩ := doorRule_step s i.doorLoop
  have hu : 0 ≤ (doorRule s i.doorLoop).currentRepetitions ∧
      (sessionActive (doorRule s i.doorLoop) →
        1 ≤ (doorRule s i.doorLoop).currentRepetitions) := by
    unfold sessionActive
    rw [hr]
    refine ⟨h0, ?_⟩
    rcases hd with ⟨-, -, a, b⟩ | ⟨-, hs, a, b⟩ | ⟨-, a, b⟩
    · rw [a, b]
      intro h
      apply h1
      rcases h with h | h | ⟨-, h | h⟩
      · cases h
      · cases h
      · exact Or.inl h
      · exact Or.inr (Or.inl h)
    · rw [a, b]
      intro h
      apply h1
      rcases h with h | h | ⟨-, h⟩
      · exact Or.inr (Or.inr ⟨hs, Or.inl h⟩)
      · exact Or.inr (Or.inr ⟨hs, Or.inr h⟩)
      · exact Or.inr (Or.inr ⟨hs, h⟩)
    · rw [a, b]
      exact h1
  rw [← hr]
  generalize doorRule s i.doorLoop = u at hu
  obtain ⟨u0, u1⟩ := hu
  unfold sessionActive at u1
  have ht := handleCurrentState_step u i.key i.doorHandler i.msHandler i.msFinish
  generalize handleCurrentState u i.key i.doorHandler i.msHandler i.msFinish = t at ht
  have key : (0 ≤ t.currentRepetitions ∧
      (t.currentState = .COOKING ∨ t.currentState = .PAUSED ∨
        (t.currentState = .DOOR_OPEN ∧ (t.prevState = .COOKING ∨ t.prevState = .PAUSED)) →
        1 ≤ t.currentRepetitions)) ∧
      (t.currentRepetitions = u.currentRepetitions ∨ 1 ≤ t.currentRepetitions ∨
        (t.currentRepetitions = 0 ∧ u.currentRepetitions = 1 ∧
          t.currentState = .WAITING)) := by
    cases ht with
    | same a b c =>
      rw [a, b, c]
      exact ⟨⟨u0, u1⟩, Or.inl rfl⟩
    | configure _ a b c =>
      rw [a, b, c]
      exact ⟨⟨u0, by simp⟩, Or.inl rfl⟩
    | start _ a b c =>
      exact ⟨⟨by omega, fun _ => c⟩, Or.inr (Or.inl c)⟩
    | leaveConfig _ a b c =>
      rw [a, b, c]
      exact ⟨⟨u0, by simp⟩, Or.inl rfl⟩
    | pause hc _ a b c =>
      rw [a, b, c]
      exact ⟨⟨u0, fun _ => u1 (Or.inl hc)⟩, Or.inl rfl⟩
    | nextRepetition _ _ a b c d =>
      exact ⟨⟨by omega, fun _ => by omega⟩, Or.inr (Or.inl (by omega))⟩
    | complete hc _ a b c d =>
      have := u1 (Or.inl hc)
      rw [a, b]
      exact ⟨⟨by omega, by simp⟩, Or.inr (Or.inr ⟨by omega, by omega, rfl⟩)⟩
    | resume hc _ a b c =>
      rw [a, b, c]
      exact ⟨⟨u0, fun _ => u1 (Or.inr (Or.inl hc))⟩, Or.inl rfl⟩
  rcases checkCancel_step t i.key i.msCancel with e | ⟨-, a, b, c⟩
  · rw [e]
    exact key
  · rw [a, b, c]
    obtain ⟨⟨k0, -⟩, k2⟩ := key
    refine ⟨⟨k0, by simp⟩, ?_⟩
    rcases k2 with k | k | ⟨k, k', -⟩
    · exact Or.inl k
    · exact Or.inr (Or.inl k)
    · exact Or.inr (Or.inr ⟨k, k', rfl⟩)

theorem run_repetitions (inputs : List Input) (s : State)
    (h0 : 0 ≤ s.currentRepetitions) (h1 : sessionActive s → 1 ≤ s.currentRepetitions) :
    0 ≤ (run s inputs).currentRepetitions ∧
    (sessionActive (run s inputs) → 1 ≤ (run s inputs).currentRepetitions) := by
  induction inputs generalizing s with
  | nil => exact ⟨h0, h1⟩
  | cons i rest ih =>
    obtain ⟨⟨a, b⟩, -⟩ := loop_repetitions s i h0 h1
    exact ih (loop s i) a b

/-- C12. In every state reachable from `setup` (each such state is the state at
the end of a pass through `loop`) in which a session is active, that is the
mode is `COOKING` or `PAUSED`, or the mode is `DOOR_OPEN` with saved mode
`COOKING` or `PAUSED`, the remaining repetitions `currentRepetitions` are at
least 1.  They are never negative, and in each pass from a reachable state they
stay as they are, or end at a value of at least 1, or go from 1 to 0 in a pass
that ends in mode `WAITING` (Idle), the session completed. -/
theorem C12_repetitions_at_least_one (s : State) (h : Reachable s) :
    (sessionActive s → 1 ≤ s.currentRepetitions) ∧
    0 ≤ s.currentRepetitions ∧
    (∀ i : Input,
      (loop s i).currentRepetitions = s.currentRepetitions ∨
      1 ≤ (loop s i).currentRepetitions ∨
      ((loop s i).currentRepetitions = 0 ∧ s.currentRepetitions = 1 ∧
        (loop s i).currentState = .WAITING)) := by
  obtain ⟨inputs, rfl⟩ := h
  have hs : ¬ sessionActive setup := by
    unfold sessionActive
    decide
  obtain ⟨a, b⟩ := run_repetitions inputs setup (by decide) (fun h => absurd h hs)
  exact ⟨b, a, fun i => (loop_repetitions _ i a b).2⟩

/-- C12, instance: quick cook `1` after two engine ticks is in its last
repetition; the next engine tick takes the repetitions from 1 to 0 and ends in
`WAITING`. -/
theorem C12_repetitions_at_least_one_witness :
    Reachable (run (started '1') (engineTicks 2 0)) ∧
    sessionActive (run (started '1') (engineTicks 2 0)) ∧
    1 ≤ (run (started '1') (engineTicks 2 0)).currentRepetitions ∧
    (loop (run (started '1') (engineTicks 2 0)) (quietPass 3000)).currentRepetitions = 0 ∧
    (loop (run (started '1') (engineTicks 2 0)) (quietPass 3000)).currentState = .WAITING :=
  have hr : Reachable (run (started '1') (engineTicks 2 0)) :=
    reachable_run _ (reachable_started '1') _
  have ha : sessionActive (run (started '1') (engineTicks 2 0)) := Or.inl (by decide!)
  ⟨hr, ha, (C12_repetitions_at_least_one _ hr).1 ha, by decide!, by decide!⟩

/-! ## The door check of the cooking handler (C20) -/

/-- With one door sample per pass, a pass started with neither mode nor saved
mode `PAUSED` ends the same way. -/
theorem loop_not_paused (s : State) (i : Input) (hi : i.oneDoorSample)
    (h1 : s.currentState ≠ .PAUSED) (h2 : s.prevState ≠ .PAUSED) :
    (loop s i).currentState ≠ .PAUSED ∧ (loop s i).prevState ≠ .PAUSED := by
  obtain ⟨c1, c2, -⟩ := loop_core s i
  rw [c1, c2]
  obtain ⟨-, hd⟩ := doorRule_step s i.doorLoop
  have hu : (doorRule s i.doorLoop).currentState ≠ .PAUSED ∧
      (doorRule s i.doorLoop).prevState ≠ .PAUSED ∧
      (i.doorHandler = false → (doorRule s i.doorLoop).currentState = .DOOR_OPEN) := by
    rw [hi.1]
    rcases hd with ⟨d, -, a, b⟩ | ⟨d, -, a, b⟩ | ⟨d, a, b⟩
    · rw [a, b]; exact ⟨by decide, h1, fun _ => rfl⟩
    · rw [a, b]; exact ⟨h2, h2, fun h => by rw [d] at h; cases h⟩
    · rw [a, b]; exact ⟨h1, h2, fun h => d.mp h⟩
  generalize doorRule s i.doorLoop = u at hu
  obtain ⟨u1, u2, u3⟩ := hu
  have ht : (handleCurrentState u i.key i.doorHandler i.msHandler i.msFinish).currentState
        ≠ .PAUSED ∧
      (handleCurrentState u i.key i.doorHandler i.msHandler i.msFinish).prevState
        ≠ .PAUSED := by
    cases handleCurrentState_step u i.key i.doorHandler i.msHandler i.msFinish with
    | same a b _ => rw [a, b]; exact ⟨u1, u2⟩
    | configure _ a b _ => rw [a, b]; exact ⟨by decide, by decide⟩
    | start _ a b _ => rw [a, b]; exact ⟨by decide, by decide⟩
    | leaveConfig _ a b _ => rw [a, b]; exact ⟨by decide, by decide⟩
    | pause hc hdoor _ _ _ =>
      have := u3 hdoor
      rw [hc] at this
      cases this
    | nextRepetition _ _ a b _ _ => rw [a, b]; exact ⟨by decide, u2⟩
    | complete _ _ a b _ _ => rw [a, b]; exact ⟨by decide, by decide⟩
    | resume hc _ _ _ _ => exact absurd hc u1
  generalize handleCurrentState u i.key i.doorHandler i.msHandler i.msFinish = t at ht
  rcases checkCancel_step t i.key i.msCancel with e | ⟨-, a, b, -⟩
  · rw [e]; exact ht
  · rw [a, b]; exact ⟨by decide, by decide⟩

theorem run_not_paused (inputs : List Input) (s : State)
    (hi : ∀ i ∈ inputs, i.oneDoorSample)
    (h1 : s.currentState ≠ .PAUSED) (h2 : s.prevState ≠ .PAUSED) :
    (run s inputs).currentState ≠ .PAUSED ∧ (run s inputs).prevState ≠ .PAUSED := by
  induction inputs generalizing s with
  | nil => exact ⟨h1, h2⟩
  | cons i rest ih =>
    obtain ⟨a, b⟩ := loop_not_paused s i (hi i (List.mem_cons_self i rest)) h1 h2
    exact ih (loop s i) (fun j hj => hi j (List.mem_cons_of_mem i hj)) a b

/-- C20. Assuming the door sensor yields one value per pass through `loop`
(every read within the pass returns the sample taken at the top of `loop`): in
every state reachable from `setup`, under any sequence of door samples, keys
and clock values, neither the mode nor the saved previous mode is `PAUSED`, and
in the next pass the door check inside the cooking handler does not fire: when
the dispatcher runs the cooking handler, the handler reads the door closed. -/
theorem C20_paused_unreachable (s : State) (h : ReachableOneSample s) :
    s.currentState ≠ .PAUSED ∧ s.prevState ≠ .PAUSED ∧
    (∀ i : Input, i.oneDoorSample →
      (doorRule s i.doorLoop).currentState = .COOKING → i.doorHandler = true) := by
  obtain ⟨inputs, hi, rfl⟩ := h
  obtain ⟨a, b⟩ := run_not_paused inputs setup hi (by decide) (by decide)
  refine ⟨a, b, ?_⟩
  intro i hs hc
  rw [hs.1]
  obtain ⟨-, hd⟩ := doorRule_step (run setup inputs) i.doorLoop
  rcases hd with ⟨-, -, e, -⟩ | ⟨d, -⟩ | ⟨d, e, -⟩
  · rw [e] at hc
    cases hc
  · exact d
  · cases hdl : i.doorLoop with
    | true => rfl
    | false =>
      have := d.mp hdl
      rw [e, this] at hc
      cases hc

/-- C20, instance: slot B is started, the door is opened and closed again, one
door sample per pass: the mode is `COOKING`, never `PAUSED`. -/
theorem C20_paused_unreachable_witness :
    ReachableOneSample (run setup [Input.uniform true 'B' 0, Input.uniform false NO_KEY 300,
      Input.uniform true NO_KEY 600]) ∧
    (run setup [Input.uniform true 'B' 0, Input.uniform false NO_KEY 300,
      Input.uniform true NO_KEY 600]).currentState ≠ .PAUSED ∧
    (run setup [Input.uniform true 'B' 0, Input.uniform false NO_KEY 300,
      Input.uniform true NO_KEY 600]).currentState = .COOKING :=
  have hr : ReachableOneSample (run setup [Input.uniform true 'B' 0,
      Input.uniform false NO_KEY 300, Input.uniform true NO_KEY 600]) :=
    ⟨_, by simp [Input.oneDoorSample, Input.uniform], rfl⟩
  ⟨hr, (C20_paused_unreachable _ hr).1, by decide!⟩

/-! ## The input buffer (C11) -/

theorem isDigitKey_codes {key : Char} (h : isDigitKey key = true) :
    48 ≤ key.toNat ∧ key.toNat ≤ 57 := by
  unfold isDigitKey at h
  simpa using h

theorem isDigitKey_ne_NO_KEY {key : Char} (h : isDigitKey key = true) : key ≠ NO_KEY := by
  have := isDigitKey_codes h
  have h0 : NO_KEY.toNat = 0 := by decide
  exact key_ne_of_toNat (by omega)

theorem isDigitKey_ne_star {key : Char} (h : isDigitKey key = true) : key ≠ '*' := by
  have := isDigitKey_codes h
  exact key_ne_of_toNat (by simp; omega)

/-- Lines 318-324: a digit key is appended when fewer than four characters are
in the buffer, and changes nothing otherwise. -/
theorem configKey_digit (u : State) (key : Char) (hk : isDigitKey key = true) :
    (u.configInput.length < 4 →
      (configKey u key).configInput = u.configInput ++ [key] ∧
      (configKey u key).configStep = u.configStep ∧
      (configKey u key).cookTime = u.cookTime ∧ (configKey u key).coolTime = u.coolTime ∧
      (configKey u key).repetitions = u.repetitions ∧
      (configKey u key).cookingPrograms = u.cookingPrograms) ∧
    (¬ u.configInput.length < 4 → configKey u key = u) := by
  unfold configKey
  rw [if_neg (isDigitKey_ne_NO_KEY hk), if_pos hk]
  constructor
  · intro h
    rw [if_pos h]
    exact ⟨rfl, rfl, rfl, rfl, rfl, rfl⟩
  · intro h
    rw [if_neg h]

theorem configPrompt_buffer (u : State) (h : bufferWellFormed u) :
    bufferWellFormed (configPrompt u) := by
  unfold configPrompt
  split
  · unfold bufferWellFormed
    simp
  · exact h

theorem configKey_buffer (u : State) (key : Char) (h : bufferWellFormed u) :
    bufferWellFormed (configKey u key) := by
  have hc : bufferWellFormed (commitValue u (toInt u.configInput)) := by
    unfold commitValue
    split <;> exact h
  unfold configKey
  simp only []
  split_ifs with k0 k1 k2
  · exact h
  · unfold bufferWellFormed at h ⊢
    simp only [List.mem_append, List.mem_singleton, List.length_append, List.length_singleton]
    refine ⟨?_, by omega⟩
    rintro c (hc | rfl)
    · exact h.1 c hc
    · exact k1
  · exact h
  · exact h
  · exact h
  · exact hc
  · unfold bufferWellFormed resetConfiguration
    simp
  · exact h

theorem endRepetition_configInput (u : State) (m : String) (mf : Nat) :
    (endRepetition u m mf).configInput = u.configInput := by
  unfold endRepetition
  simp only []
  split <;> rfl

theorem timerFired_configInput (u : State) (now mf : Nat) :
    (timerFired u now mf).configInput = u.configInput := by
  unfold timerFired
  simp only []
  split
  · split
    · rfl
    · split
      · rfl
      · exact endRepetition_configInput _ _ _
  · split
    · split
      · rfl
      · exact endRepetition_configInput _ _ _
    · rfl

/-- The mode dispatcher keeps the buffer well formed. -/
theorem handleCurrentState_buffer (s : State) (key : Char) (door : Bool) (ms mf : Nat)
    (h : bufferWellFormed s) : bufferWellFormed (handleCurrentState s key door ms mf) := by
  have hu : bufferWellFormed (ensureScreen s) := by
    rw [ensureScreen_eq]; exact h
  unfold handleCurrentState
  simp only []
  generalize ensureScreen s = u at hu
  have keep : ∀ t : State, t.configInput = u.configInput → bufferWellFormed t := by
    intro t e
    unfold bufferWellFormed at hu ⊢
    rw [e]
    exact hu
  split
  · apply keep
    unfold handleWaitingState startCookingProgram
    split_ifs <;> rfl
  · exact configKey_buffer _ key (configPrompt_buffer u hu)
  · apply keep
    unfold handleCookingState
    split_ifs
    · rfl
    · exact timerFired_configInput _ _ _
    · rfl
  · apply keep
    unfold handlePausedState
    split_ifs <;> rfl
  · exact hu
  · exact keep _ rfl

theorem loop_buffer (s : State) (i : Input) (h : bufferWellFormed s) :
    bufferWellFormed (loop s i) := by
  have c14 := (loop_core s i).2.2.2.2.2.2.2.2.2.2.2.2.2.1
  have hu : bufferWellFormed (doorRule s i.doorLoop) := by
    unfold doorRule
    split_ifs <;> exact h
  have ht := handleCurrentState_buffer (doorRule s i.doorLoop) i.key i.doorHandler
    i.msHandler i.msFinish hu
  generalize handleCurrentState (doorRule s i.doorLoop) i.key i.doorHandler
    i.msHandler i.msFinish = t at ht c14
  have hc : (checkCancel t i.key i.msCancel).configInput = t.configInput := by
    unfold checkCancel
    split_ifs <;> rfl
  unfold bufferWellFormed at ht ⊢
  rw [c14, hc]
  exact ht

theorem run_buffer (inputs : List Input) (s : State) (h : bufferWellFormed s) :
    bufferWellFormed (run s inputs) := by
  induction inputs generalizing s with
  | nil => exact h
  | cons i rest ih => exact ih (loop s i) (loop_buffer s i h)

/-- C11. In mode `CONFIGURING` with the door closed, a digit key is appended to
the input buffer exactly when the length of the buffer, as it stands when the
key is processed (emptied first by the first-pass block when the first-entry
flag is set), is less than 4; otherwise the key is ignored: buffer, step,
committed values and slots stay as they are.  Consequently in every state
reachable from `setup` the input buffer holds digit characters only and at
most 4 of them. -/
theorem C11_buffer_at_most_four_digits :
    (∀ (s : State) (i : Input), s.currentState = .CONFIGURING → i.doorLoop = true →
      isDigitKey i.key = true →
      ((if s.configFirstTime then [] else s.configInput).length < 4 →
        (loop s i).configInput =
          (if s.configFirstTime then [] else s.configInput) ++ [i.key]) ∧
      (¬ (if s.configFirstTime then [] else s.configInput).length < 4 →
        (loop s i).configInput = s.configInput ∧
        (loop s i).configStep = s.configStep ∧
        (loop s i).cookTime = s.cookTime ∧ (loop s i).coolTime = s.coolTime ∧
        (loop s i).repetitions = s.repetitions ∧
        (loop s i).cookingPrograms = s.cookingPrograms)) ∧
    (∀ s : State, Reachable s →
      (∀ c ∈ s.configInput, isDigitKey c = true) ∧ s.configInput.length ≤ 4) := by
  constructor
  · intro s i hs hd hk
    have hc := loop_configuring_core s i hs hd (isDigitKey_ne_star hk)
    obtain ⟨-, p2, p3, p4, p5, p6, -, p8⟩ := configPrompt_ensureScreen s
    obtain ⟨d1, d2⟩ := configKey_digit (configPrompt (ensureScreen s)) i.key hk
    obtain ⟨-, -, -, -, -, -, -, -, c9, c10, c11, c12, -, c14, c15, -⟩ := hc
    rw [p8] at d1 d2
    constructor
    · intro hl
      obtain ⟨a, -⟩ := d1 hl
      rw [c14, a]
    · intro hl
      have e := d2 hl
      rw [e] at c9 c10 c11 c12 c14 c15
      have hf : s.configFirstTime = false := by
        cases hft : s.configFirstTime with
        | false => rfl
        | true =>
          rw [hft] at hl
          simp at hl
      rw [hf] at p8
      exact ⟨c14.trans (by simpa using p8), c12.trans p2, c9.trans p3, c10.trans p4,
        c11.trans p5, c15.trans p6⟩
  · rintro s ⟨inputs, rfl⟩
    exact run_buffer inputs setup (by unfold bufferWellFormed; decide)

/-- C11, instance: five digits typed at step `SET_COOK_TIME`; the fifth is
ignored and the buffer holds the first four. -/
theorem C11_buffer_at_most_four_digits_witness :
    (run setup [Input.uniform true '#' 0, Input.uniform true '1' 100,
      Input.uniform true '2' 200, Input.uniform true '3' 300,
      Input.uniform true '4' 400]).configInput = ['1', '2', '3', '4'] ∧
    (loop (run setup [Input.uniform true '#' 0, Input.uniform true '1' 100,
      Input.uniform true '2' 200, Input.uniform true '3' 300,
      Input.uniform true '4' 400]) (Input.uniform true '5' 500)).configInput
      = ['1', '2', '3', '4'] ∧
    (loop (run setup [Input.uniform true '#' 0, Input.uniform true '1' 100,
      Input.uniform true '2' 200, Input.uniform true '3' 300,
      Input.uniform true '4' 400]) (Input.uniform true '5' 500)).configInput.length ≤ 4 :=
  have h := (C11_buffer_at_most_four_digits.1
    (run setup [Input.uniform true '#' 0, Input.uniform true '1' 100,
      Input.uniform true '2' 200, Input.uniform true '3' 300,
      Input.uniform true '4' 400]) (Input.uniform true '5' 500)
    (by decide!) rfl (by decide)).2 (by decide!)
  ⟨by decide!, h.1.trans (by decide!),
   (C11_buffer_at_most_four_digits.2 _
      (reachable_loop _ (reachable_run setup reachable_setup _) _)).2⟩

/-! ## The close-the-door prompt (C15) -/

/-- The dispatcher calls the door-open handler in mode `DOOR_OPEN` only, where
the test of line 596 on `currentState` fails: the second line is always the
text for the idle case. -/
theorem handleDoorOpenState_second_line (u : State) (h : u.currentState = .DOOR_OPEN) :
    (handleDoorOpenState u).trace =
      u.trace ++ [.lcdSetCursor 0 0, .lcdPrint "Cierre la puerta", .lcdSetCursor 0 1,
        .lcdPrint "Para iniciar    "] := by
  unfold handleDoorOpenState
  simp [h]

/-- C15 fails on the code.  Slot B is cooking (a reachable state) and the door
is sampled open: the pass ends in mode `DOOR_OPEN` with saved mode `COOKING`,
and the last LCD command of the pass, the second line of the prompt, is
"Para iniciar    ", the text for the idle case, not "Para continuar  ".  The
same second line is written when the door is opened in mode `WAITING`. -/
theorem C15_second_line_ignores_saved_mode :
    (started 'B').currentState = .COOKING ∧
    (loop (started 'B') (Input.uniform false NO_KEY 700)).currentState = .DOOR_OPEN ∧
    (loop (started 'B') (Input.uniform false NO_KEY 700)).prevState = .COOKING ∧
    (loop (started 'B') (Input.uniform false NO_KEY 700)).trace.getLast?
      = some (.lcdPrint "Para iniciar    ") ∧
    (loop setup (Input.uniform false NO_KEY 700)).prevState = .WAITING ∧
    (loop setup (Input.uniform false NO_KEY 700)).trace.getLast?
      = some (.lcdPrint "Para iniciar    ") :=
  ⟨by decide!, by decide!, by decide!, by decide!, by decide!, by decide!⟩

/-! ## The mute window of the tone (C17) -/

/-- C17 fails on the code.  After `setup` one pass goes by at clock 0 with the
door closed and no key (the tone renderer records phase 0 and
`phaseStartTime = 0`); at clock 5000 key `A` starts slot A.  The heating phase
is entered in this pass (timer baseline 5000), the phase variable equals the
recorded one, so the mute window is not restarted, and the tone renderer of the
same pass already sounds the heating tone: 0 ms after the phase was entered. -/
theorem C17_tone_in_the_pass_that_starts_the_session :
    (run setup [quietPass 0]).currentState = .WAITING ∧
    (run setup [quietPass 0]).buzzer = none ∧
    (run setup [quietPass 0]).lastStep = 0 ∧
    (run setup [quietPass 0]).phaseStartTime = 0 ∧
    (loop (run setup [quietPass 0]) (Input.uniform true 'A' 5000)).currentState = .COOKING ∧
    (loop (run setup [quietPass 0]) (Input.uniform true 'A' 5000)).currentStep = 0 ∧
    (loop (run setup [quietPass 0]) (Input.uniform true 'A' 5000)).lastTimerUpdate = 5000 ∧
    (loop (run setup [quietPass 0]) (Input.uniform true 'A' 5000)).phaseStartTime = 0 ∧
    (loop (run setup [quietPass 0]) (Input.uniform true 'A' 5000)).buzzer = some 300 :=
  ⟨by decide!, by decide!, by decide!, by decide!, by decide!, by decide!, by decide!,
   by decide!, by decide!⟩

/-! ## Finishing the wizard and cancelling it (C19) -/

/-- Lines 369-375: key `#` at step `CONFIG_DONE`. -/
theorem configKey_hash_done (u : State) (hstep : u.configStep = .CONFIG_DONE) :
    configKey u '#' =
      resetConfiguration
        (u.emit [.lcdClear, .lcdSetCursor 0 1, .lcdPrint "Cancelado       "]) := by
  unfold configKey
  rw [if_neg (by decide), if_neg (by decide), if_pos rfl, if_neg (by simp [hstep])]

/-- Key `#` at step `CONFIG_DONE`, door closed: the pass resets the draft with
`resetConfiguration`, which saves the mode `CONFIGURING`. -/
theorem loop_finalize (s : State) (i : Input)
    (hs : s.currentState = .CONFIGURING) (hstep : s.configStep = .CONFIG_DONE)
    (hd : i.doorLoop = true) (hk : i.key = '#') :
    (loop s i).currentState = .WAITING ∧ (loop s i).prevState = .CONFIGURING ∧
    (loop s i).configStep = .SET_COOK_TIME ∧
    (loop s i).cookTime = 0 ∧ (loop s i).coolTime = 0 ∧ (loop s i).repetitions = 1 ∧
    (loop s i).cookingPrograms = s.cookingPrograms ∧
    (loop s i).configInput = [] := by
  have hc := loop_configuring_core s i hs hd (by rw [hk]; decide)
  rw [hk] at hc
  obtain ⟨p1, p2, -, -, -, p6, -, -⟩ := configPrompt_ensureScreen s
  rw [configKey_hash_done _ (p2.trans hstep)] at hc
  obtain ⟨c1, c2, -, -, -, -, -, -, c9, c10, c11, c12, -, c14, c15, -⟩ := hc
  exact ⟨c1, c2.trans (p1.trans hs), c12, c9, c10, c11, c15.trans p6, c14⟩

/-- Key `*` in mode `CONFIGURING`, door closed: the pass resets with
`resetAfterCooking`, which saves the mode `WAITING` and leaves the buffer to
the handler. -/
theorem loop_cancel_configuring (s : State) (i : Input)
    (hs : s.currentState = .CONFIGURING) (hd : i.doorLoop = true) (hk : i.key = '*') :
    (loop s i).currentState = .WAITING ∧ (loop s i).prevState = .WAITING ∧
    (loop s i).configStep = .SET_COOK_TIME ∧
    (loop s i).cookTime = 0 ∧ (loop s i).coolTime = 0 ∧ (loop s i).repetitions = 1 ∧
    (loop s i).cookingPrograms = s.cookingPrograms ∧
    (loop s i).configInput = (if s.configFirstTime then [] else s.configInput) := by
  have hc := loop_core s i
  rw [hd, hk, doorRule_closed s (by simp [hs])] at hc
  obtain ⟨p1, -, -, -, -, p6, -, p8⟩ := configPrompt_ensureScreen s
  have hh : handleCurrentState s '*' i.doorHandler i.msHandler i.msFinish =
      configPrompt (ensureScreen s) := by
    unfold handleCurrentState
    simp only []
    have hm : (ensureScreen s).currentState = .CONFIGURING := by
      rw [ensureScreen_eq]; exact hs
    rw [hm]
    simp only []
    unfold handleConfiguringState configKey
    simp [NO_KEY, isDigitKey]
  rw [hh] at hc
  have hx : checkCancel (configPrompt (ensureScreen s)) '*' i.msCancel =
      resetAfterCooking
        { configPrompt (ensureScreen s) with
          trace := (configPrompt (ensureScreen s)).trace ++
            [.lcdClear, .lcdPrint "Cancelado       ", .delay 1000],
          prevState := .WAITING,
          currentState := .WAITING,
          screenInitialized := false } i.msCancel := by
    unfold checkCancel
    rw [if_pos rfl, if_pos (Or.inl (p1.trans hs))]
  rw [hx] at hc
  obtain ⟨c1, c2, -, -, -, -, -, -, c9, c10, c11, c12, -, c14, c15, -⟩ := hc
  exact ⟨c1, c2, c12, c9, c10, c11, c15.trans p6, c14.trans p8⟩

/-- C19 fails as stated.  The wizard is run to step `CONFIG_DONE` with cook 4,
cool 0, 2 repetitions.  Key `#` then ends in mode `WAITING` with saved previous
mode `CONFIGURING`; key `*` from the same state ends in mode `WAITING` with
saved previous mode `WAITING`. -/
theorem C19_counterexample :
    (run setup [Input.uniform true '#' 0, Input.uniform true '4' 100,
      Input.uniform true '#' 200, Input.uniform true '0' 300, Input.uniform true '#' 400,
      Input.uniform true '2' 500, Input.uniform true '#' 600]).currentState
      = .CONFIGURING ∧
    (run setup [Input.uniform true '#' 0, Input.uniform true '4' 100,
      Input.uniform true '#' 200, Input.uniform true '0' 300, Input.uniform true '#' 400,
      Input.uniform true '2' 500, Input.uniform true '#' 600]).configStep
      = .CONFIG_DONE ∧
    (loop (run setup [Input.uniform true '#' 0, Input.uniform true '4' 100,
      Input.uniform true '#' 200, Input.uniform true '0' 300, Input.uniform true '#' 400,
      Input.uniform true '2' 500, Input.uniform true '#' 600])
      (Input.uniform true '#' 700)).prevState = .CONFIGURING ∧
    (loop (run setup [Input.uniform true '#' 0, Input.uniform true '4' 100,
      Input.uniform true '#' 200, Input.uniform true '0' 300, Input.uniform true '#' 400,
      Input.uniform true '2' 500, Input.uniform true '#' 600])
      (Input.uniform true '*' 700)).prevState = .WAITING :=
  ⟨by decide!, by decide!, by decide!, by decide!⟩

/-- C19, amended.  In mode `CONFIGURING` at step `CONFIG_DONE`, a pass with the
door closed and key `#` returns the mode to `WAITING` (Idle) and leaves the
mode, the configuration step, the committed draft values and the four program
slots exactly as a pass with key `*` from the same state leaves them; slot D
keeps the values committed during the wizard.  The saved previous mode is not
the same: `CONFIGURING` after `#`, `WAITING` after `*`. -/
theorem C19_finalize_matches_cancel (s : State) (i j : Input)
    (hs : s.currentState = .CONFIGURING) (hstep : s.configStep = .CONFIG_DONE)
    (hi : i.doorLoop = true) (hki : i.key = '#')
    (hj : j.doorLoop = true) (hkj : j.key = '*') :
    (loop s i).currentState = .WAITING ∧
    (loop s i).currentState = (loop s j).currentState ∧
    (loop s i).configStep = (loop s j).configStep ∧
    (loop s i).cookTime = (loop s j).cookTime ∧
    (loop s i).coolTime = (loop s j).coolTime ∧
    (loop s i).repetitions = (loop s j).repetitions ∧
    (loop s i).cookingPrograms = (loop s j).cookingPrograms ∧
    (loop s i).cookingPrograms = s.cookingPrograms ∧
    (loop s i).prevState = .CONFIGURING ∧ (loop s j).prevState = .WAITING := by
  obtain ⟨a1, a2, a3, a4, a5, a6, a7, -⟩ := loop_finalize s i hs hstep hi hki
  obtain ⟨b1, b2, b3, b4, b5, b6, b7, -⟩ := loop_cancel_configuring s j hs hj hkj
  exact ⟨a1, a1.trans b1.symm, a3.trans b3.symm, a4.trans b4.symm, a5.trans b5.symm,
    a6.trans b6.symm, a7.trans b7.symm, a7, a2, b2⟩

/-- C19 amended, instance: the wizard run to `CONFIG_DONE` with cook 4, cool 0,
2 repetitions; after `#` slot D holds these values. -/
theorem C19_finalize_matches_cancel_witness :
    (loop (run setup [Input.uniform true '#' 0, Input.uniform true '4' 100,
      Input.uniform true '#' 200, Input.uniform true '0' 300, Input.uniform true '#' 400,
      Input.uniform true '2' 500, Input.uniform true '#' 600])
      (Input.uniform true '#' 700)).currentState = .WAITING ∧
    (loop (run setup [Input.uniform true '#' 0, Input.uniform true '4' 100,
      Input.uniform true '#' 200, Input.uniform true '0' 300, Input.uniform true '#' 400,
      Input.uniform true '2' 500, Input.uniform true '#' 600])
      (Input.uniform true '#' 700)).configStep = .SET_COOK_TIME ∧
    ((loop (run setup [Input.uniform true '#' 0, Input.uniform true '4' 100,
      Input.uniform true '#' 200, Input.uniform true '0' 300, Input.uniform true '#' 400,
      Input.uniform true '2' 500, Input.uniform true '#' 600])
      (Input.uniform true '#' 700)).cookingPrograms 3).cookTime = 4 ∧
    ((loop (run setup [Input.uniform true '#' 0, Input.uniform true '4' 100,
      Input.uniform true '#' 200, Input.uniform true '0' 300, Input.uniform true '#' 400,
      Input.uniform true '2' 500, Input.uniform true '#' 600])
      (Input.uniform true '#' 700)).cookingPrograms 3).repetitions = 2 :=
  have h := C19_finalize_matches_cancel
    (run setup [Input.uniform true '#' 0, Input.uniform true '4' 100,
      Input.uniform true '#' 200, Input.uniform true '0' 300, Input.uniform true '#' 400,
      Input.uniform true '2' 500, Input.uniform true '#' 600])
    (Input.uniform true '#' 700) (Input.uniform true '*' 700)
    (by decide!) (by decide!) rfl rfl rfl rfl
  ⟨h.1, by decide!, by decide!, by decide!⟩

/-! ## Duration of any session (C22) -/

/-- A session just started with cook seconds `c`, cool seconds `k` and `r`
repetitions needs `n + 1` engine ticks, where `n + 1` is the product of `r`
and the ticks of one repetition. -/
theorem session_duration (u : State) (t : Nat) (c k r n : Nat)
    (h1 : u.currentState = .COOKING) (h2 : u.currentStep = 0)
    (h3 : u.currentCookTime = c) (h4 : u.currentCoolTime = k)
    (h5 : u.currentRepetitions = r) (h6 : u.cookTime = c) (h7 : u.coolTime = k)
    (hl : u.lastTimerUpdate = millis t) (hr : 1 ≤ r)
    (hn : r * (c + 2 + (if 0 < k then k + 2 else 0)) = n + 1) :
    (∀ m, m < n + 1 → (run u (engineTicks m t)).currentState = .COOKING) ∧
    (run u (engineTicks (n + 1) t)).currentState = .WAITING := by
  obtain ⟨a, b⟩ := sessionRunning_of_start u (c : Int) (k : Int) (r : Int) h1 h2 h3 h4 h5 h6 h7
    (by omega) (by omega) (by omega)
  have hrem : remainingTicks u = (n : Int) + 1 := by
    rw [b]
    have e : ((r * (c + 2 + (if 0 < k then k + 2 else 0)) : Nat) : Int) = ((n + 1 : Nat) : Int) := by
      rw [hn]
    by_cases hk : 0 < k
    · rw [if_pos hk] at e
      rw [if_pos (by omega)]
      push_cast at e
      linarith
    · rw [if_neg hk] at e
      rw [if_neg (by omega)]
      push_cast at e
      linarith
  obtain ⟨q1, q2, -⟩ := run_engineTicks n u t a hl hrem
  exact ⟨fun m hm => q1 m (by omega), q2⟩

/-- C22. For every session just started with cook seconds `c ≥ 0`, cool
seconds `k ≥ 0` and repetitions `r ≥ 1` (mode `COOKING`, phase heating, both
counters primed, timer baseline `t`), with the door kept closed and no key
pressed: the mode is `COOKING` after every number of engine ticks (passes one
second apart, each firing the one-second timer of the cooking handler once)
below `r × (c + 2)` when `k = 0`, below `r × (c + k + 4)` when `k > 0`, and the
mode is `WAITING` (Idle) after exactly that many engine ticks.  In particular
every session terminates. -/
theorem C22_session_tick_count (u : State) (t : Nat) (c k r : Nat)
    (h1 : u.currentState = .COOKING) (h2 : u.currentStep = 0)
    (h3 : u.currentCookTime = c) (h4 : u.currentCoolTime = k)
    (h5 : u.currentRepetitions = r) (h6 : u.cookTime = c) (h7 : u.coolTime = k)
    (hl : u.lastTimerUpdate = millis t) (hr : 1 ≤ r) :
    (k = 0 →
      (∀ m, m < r * (c + 2) → (run u (engineTicks m t)).currentState = .COOKING) ∧
      (run u (engineTicks (r * (c + 2)) t)).currentState = .WAITING) ∧
    (0 < k →
      (∀ m, m < r * (c + k + 4) → (run u (engineTicks m t)).currentState = .COOKING) ∧
      (run u (engineTicks (r * (c + k + 4)) t)).currentState = .WAITING) ∧
    (∃ N, (run u (engineTicks N t)).currentState = .WAITING) := by
  have pos : ∀ x : Nat, 2 ≤ x → ∃ n, r * x = n + 1 := by
    intro x hx
    have : 1 ≤ r * x := Nat.mul_pos (by omega) (by omega)
    exact ⟨r * x - 1, by omega⟩
  have zero : k = 0 →
      (∀ m, m < r * (c + 2) → (run u (engineTicks m t)).currentState = .COOKING) ∧
      (run u (engineTicks (r * (c + 2)) t)).currentState = .WAITING := by
    intro hk
    obtain ⟨n, hn⟩ := pos (c + 2) (by omega)
    rw [hn]
    exact session_duration u t c k r n h1 h2 h3 h4 h5 h6 h7 hl hr (by
      rw [if_neg (by omega)]
      exact hn)
  have some_ : 0 < k →
      (∀ m, m < r * (c + k + 4) → (run u (engineTicks m t)).currentState = .COOKING) ∧
      (run u (engineTicks (r * (c + k + 4)) t)).currentState = .WAITING := by
    intro hk
    obtain ⟨n, hn⟩ := pos (c + k + 4) (by omega)
    rw [hn]
    exact session_duration u t c k r n h1 h2 h3 h4 h5 h6 h7 hl hr (by
      rw [if_pos hk, ← hn]
      ring)
  refine ⟨zero, some_, ?_⟩
  rcases Nat.eq_zero_or_pos k with hk | hk
  · exact ⟨_, (zero hk).2⟩
  · exact ⟨_, (some_ hk).2⟩

/-- C22, instance: slot C (cook 15, cool 3, 3 repetitions) started at clock 0
completes after exactly 3 × (15 + 3 + 4) = 66 engine ticks; quick cook `5`
(cool 0) after exactly 1 × (5 + 2) = 7. -/
theorem C22_session_tick_count_witness :
    (run (started 'C') (engineTicks 65 0)).currentState = .COOKING ∧
    (run (started 'C') (engineTicks 66 0)).currentState = .WAITING ∧
    (run (started '5') (engineTicks 6 0)).currentState = .COOKING ∧
    (run (started '5') (engineTicks 7 0)).currentState = .WAITING :=
  have hC := (C22_session_tick_count (started 'C') 0 15 3 3 (by decide!) (by decide!)
    (by decide!) (by decide!) (by decide!) (by decide!) (by decide!) (by decide!)
    (by decide)).2.1 (by decide)
  have h5 := (C22_session_tick_count (started '5') 0 5 0 1 (by decide!) (by decide!)
    (by decide!) (by decide!) (by decide!) (by decide!) (by decide!) (by decide!)
    (by decide)).1 rfl
  ⟨hC.1 65 (by decide), hC.2, h5.1 6 (by decide), h5.2⟩

/-! ## Cancelling the wizard leaves slot D as committed (C23) -/

/-- C23. For every state in mode `CONFIGURING`, a pass with the door closed and
key `*` (global cancel) ends in mode `WAITING` and leaves all four program
slots exactly as they were before the pass, so the values already committed to
slot D stay there, while the committed values of the draft are reset to cook 0,
cool 0, 1 repetition.  A following pass with the door closed and key `D`
starts a session with the values left in slot D (`max 1` of its
repetitions). -/
theorem C23_cancel_keeps_slot_D (s : State) (i j : Input)
    (hs : s.currentState = .CONFIGURING)
    (hi : i.doorLoop = true) (hki : i.key = '*')
    (hj : j.doorLoop = true) (hkj : j.key = 'D') :
    (loop s i).currentState = .WAITING ∧
    (loop s i).cookingPrograms = s.cookingPrograms ∧
    ((loop s i).cookTime = 0 ∧ (loop s i).coolTime = 0 ∧ (loop s i).repetitions = 1) ∧
    ((loop (loop s i) j).currentState = .COOKING ∧
     (loop (loop s i) j).currentProgramIndex = 3 ∧
     (loop (loop s i) j).currentCookTime = (s.cookingPrograms 3).cookTime ∧
     (loop (loop s i) j).currentCoolTime = (s.cookingPrograms 3).coolTime ∧
     (loop (loop s i) j).currentRepetitions = max 1 (s.cookingPrograms 3).repetitions) := by
  obtain ⟨a1, -, -, a4, a5, a6, a7, -⟩ := loop_cancel_configuring s i hs hi hki
  obtain ⟨b1, -, -, b4, b5, b6, b7, -⟩ :=
    loop_start_program (loop s i) j 3 a1 hj (by rw [hkj]; decide)
  rw [a7] at b5 b6 b7
  exact ⟨a1, a7, ⟨a4, a5, a6⟩, b1, b4, b5, b6, b7⟩

/-- C23, instance: cook time "45" is committed in the wizard, then `*`: slot D
keeps cook 45 next to its older cool 0 and 1 repetition, the draft is back to
0, 0, 1, and key `D` then starts a session of 45 seconds. -/
theorem C23_cancel_keeps_slot_D_witness :
    ((run setup [Input.uniform true '#' 0, Input.uniform true '4' 100,
      Input.uniform true '5' 200, Input.uniform true '#' 300]).cookingPrograms 3).cookTime
      = 45 ∧
    ((loop (run setup [Input.uniform true '#' 0, Input.uniform true '4' 100,
      Input.uniform true '5' 200, Input.uniform true '#' 300])
      (Input.uniform true '*' 400)).cookingPrograms 3).cookTime = 45 ∧
    (loop (run setup [Input.uniform true '#' 0, Input.uniform true '4' 100,
      Input.uniform true '5' 200, Input.uniform true '#' 300])
      (Input.uniform true '*' 400)).cookTime = 0 ∧
    (loop (loop (run setup [Input.uniform true '#' 0, Input.uniform true '4' 100,
      Input.uniform true '5' 200, Input.uniform true '#' 300])
      (Input.uniform true '*' 400)) (Input.uniform true 'D' 500)).currentCookTime = 45 :=
  have h := C23_cancel_keeps_slot_D
    (run setup [Input.uniform true '#' 0, Input.uniform true '4' 100,
      Input.uniform true '5' 200, Input.uniform true '#' 300])
    (Input.uniform true '*' 400) (Input.uniform true 'D' 500) (by decide!) rfl rfl rfl rfl
  ⟨by decide!, (congrArg (fun p => (p 3).cookTime) h.2.1).trans (by decide!), h.2.2.1.1,
   h.2.2.2.2.2.1.trans (by decide!)⟩

/-! ## Entering the wizard from idle (C21) -/

theorem endRepetition_fresh (u : State) (m : String) (mf : Nat)
    (h : u.currentState = .COOKING) :
    (endRepetition u m mf).currentState = .COOKING ∨
    ((endRepetition u m mf).currentState = .WAITING ∧ draftFresh (endRepetition u m mf)) := by
  unfold endRepetition
  simp only []
  split
  · left; exact h
  · right; exact ⟨rfl, rfl, rfl⟩

theorem timerFired_fresh (u : State) (now mf : Nat) (h : u.currentState = .COOKING) :
    (timerFired u now mf).currentState = .COOKING ∨
    ((timerFired u now mf).currentState = .WAITING ∧ draftFresh (timerFired u now mf)) := by
  unfold timerFired
  simp only []
  split
  · split
    · left; exact h
    · split
      · left; exact h
      · exact endRepetition_fresh _ _ _ h
  · split
    · split
      · left; exact h
      · exact endRepetition_fresh _ _ _ h
    · left; exact h

theorem configKey_fresh (u : State) (key : Char) (h : u.currentState = .CONFIGURING) :
    (configKey u key).currentState = .CONFIGURING ∨
    ((configKey u key).currentState = .WAITING ∧ draftFresh (configKey u key)) := by
  unfold configKey
  simp only []
  split_ifs
  · left; exact h
  · left; exact h
  · left; exact h
  · left; exact h
  · left; exact h
  · left; exact (commitValue_modes u (toInt u.configInput)).1.trans h
  · right; exact ⟨rfl, rfl, rfl⟩
  · left; exact h

/-- The mode dispatcher keeps the invariant "idle implies fresh draft". -/
theorem handleCurrentState_fresh (s : State) (key : Char) (door : Bool) (ms mf : Nat)
    (h : idleMode s → draftFresh s) :
    idleMode (handleCurrentState s key door ms mf) →
      draftFresh (handleCurrentState s key door ms mf) := by
  have hu : idleMode (ensureScreen s) → draftFresh (ensureScreen s) := by
    rw [ensureScreen_eq]; exact h
  unfold handleCurrentState
  simp only []
  generalize ensureScreen s = u at hu
  unfold idleMode draftFresh at hu ⊢
  split
  · rename_i hc
    unfold handleWaitingState startCookingProgram
    split_ifs
    · exact hu
    · rintro (h1 | ⟨h1, -⟩) <;> cases h1
    · rintro (h1 | ⟨h1, -⟩) <;> cases h1
    · rintro (h1 | ⟨h1, -⟩) <;> cases h1
    · exact hu
  · rename_i hc
    unfold handleConfiguringState
    have hp : (configPrompt u).currentState = .CONFIGURING :=
      (configPrompt_modes u).1.trans hc
    rcases configKey_fresh (configPrompt u) key hp with a | ⟨-, b⟩
    · rintro (h1 | ⟨h1, -⟩) <;> rw [a] at h1 <;> cases h1
    · exact fun _ => b
  · rename_i hc
    unfold handleCookingState
    split_ifs
    · rintro (h1 | ⟨h1, -⟩) <;> cases h1
    · rcases timerFired_fresh u (millis ms) mf hc with a | ⟨-, b⟩
      · rintro (h1 | ⟨h1, -⟩) <;> rw [a] at h1 <;> cases h1
      · exact fun _ => b
    · exact hu
  · rename_i hc
    unfold handlePausedState
    split_ifs
    · rintro (h1 | ⟨h1, -⟩) <;> cases h1
    · exact hu
  · exact hu
  · exact hu

/-- One pass keeps the invariant "idle implies fresh draft". -/
theorem loop_fresh (s : State) (i : Input) (h : idleMode s → draftFresh s) :
    idleMode (loop s i) → draftFresh (loop s i) := by
  obtain ⟨c1, c2, -, -, -, -, -, -, -, -, -, c12, c13, -⟩ := loop_core s i
  have hu : idleMode (doorRule s i.doorLoop) → draftFresh (doorRule s i.doorLoop) := by
    unfold idleMode draftFresh at h ⊢
    unfold doorRule
    split_ifs with d1 d2
    · rintro (h1 | ⟨-, h1⟩)
      · cases h1
      · exact h (Or.inl h1)
    · rintro (h1 | ⟨h1, h2⟩)
      · exact h (Or.inr ⟨d2.2, h1⟩)
      · exact h (Or.inr ⟨d2.2, h2⟩)
    · exact h
  have ht := handleCurrentState_fresh (doorRule s i.doorLoop) i.key i.doorHandler
    i.msHandler i.msFinish hu
  generalize handleCurrentState (doorRule s i.doorLoop) i.key i.doorHandler
    i.msHandler i.msFinish = t at ht c1 c2 c12 c13
  unfold idleMode draftFresh at ht ⊢
  rw [c1, c2, c12, c13]
  unfold checkCancel
  split_ifs
  · exact fun _ => ⟨rfl, rfl⟩
  · exact ht
  · exact ht

theorem run_fresh (inputs : List Input) (s : State) (h : idleMode s → draftFresh s) :
    idleMode (run s inputs) → draftFresh (run s inputs) := by
  induction inputs generalizing s with
  | nil => exact h
  | cons i rest ih => exact ih (loop s i) (loop_fresh s i h)

/-- Key `#` in an idle state, door closed: the pass enters `CONFIGURING` and
touches neither the step, the first-entry flag, the buffer nor the slots. -/
theorem loop_enter_configuring (s : State) (i : Input) (h : idleMode s)
    (hd : i.doorLoop = true) (hk : i.key = '#') :
    (loop s i).currentState = .CONFIGURING ∧
    (loop s i).configStep = s.configStep ∧
    (loop s i).configFirstTime = s.configFirstTime ∧
    (loop s i).configInput = s.configInput ∧
    (loop s i).cookingPrograms = s.cookingPrograms := by
  have hc := loop_core s i
  rw [hd, hk, checkCancel_other _ _ _ (by decide)] at hc
  have hu : (doorRule s true).currentState = .WAITING ∧
      (doorRule s true).configStep = s.configStep ∧
      (doorRule s true).configFirstTime = s.configFirstTime ∧
      (doorRule s true).configInput = s.configInput ∧
      (doorRule s true).cookingPrograms = s.cookingPrograms := by
    unfold idleMode at h
    rcases h with h | ⟨h1, h2⟩
    · rw [doorRule_closed s (by simp [h])]
      exact ⟨h, rfl, rfl, rfl, rfl⟩
    · unfold doorRule
      simp [h1, h2]
  generalize doorRule s true = u at hu hc
  obtain ⟨u1, u2, u3, u4, u5⟩ := hu
  have hh : handleCurrentState u '#' i.doorHandler i.msHandler i.msFinish =
      { ensureScreen u with prevState := (ensureScreen u).currentState,
                            currentState := .CONFIGURING } := by
    unfold handleCurrentState
    simp only []
    have hm : (ensureScreen u).currentState = .WAITING := by
      rw [ensureScreen_eq]; exact u1
    rw [hm]
    simp only []
    unfold handleWaitingState
    rw [if_neg (by decide), if_pos rfl, hm]
  rw [hh] at hc
  obtain ⟨c1, -, -, -, -, -, -, -, -, -, -, c12, c13, c14, c15, -⟩ := hc
  have e2 : (ensureScreen u).configStep = u.configStep := by rw [ensureScreen_eq]
  have e3 : (ensureScreen u).configFirstTime = u.configFirstTime := by rw [ensureScreen_eq]
  have e4 : (ensureScreen u).configInput = u.configInput := by rw [ensureScreen_eq]
  have e5 : (ensureScreen u).cookingPrograms = u.cookingPrograms := by rw [ensureScreen_eq]
  exact ⟨c1, (c12.trans e2).trans u2, (c13.trans e3).trans u3, (c14.trans e4).trans u4,
    (c15.trans e5).trans u5⟩

/-- C21. In every state reachable from `setup` whose mode is `WAITING` (Idle),
or `DOOR_OPEN` with saved previous mode `WAITING`, the configuration step is
`SET_COOK_TIME` and the first-entry flag is set.  So every entry into
`CONFIGURING` by key `#` (door closed) starts at step `SET_COOK_TIME` with the
first-entry flag set, and the next run of the configuring handler empties the
input buffer in its first-pass block before it processes any key.  The
`WAITING` handler itself resets nothing: on `#` it only saves the mode and sets
`CONFIGURING`. -/
theorem C21_idle_has_fresh_draft (s : State) (h : Reachable s) (hidle : idleMode s) :
    (s.configStep = .SET_COOK_TIME ∧ s.configFirstTime = true) ∧
    (∀ i : Input, i.doorLoop = true → i.key = '#' →
      (loop s i).currentState = .CONFIGURING ∧
      (loop s i).configStep = .SET_COOK_TIME ∧
      (loop s i).configFirstTime = true ∧
      (loop s i).configInput = s.configInput ∧
      (configPrompt (ensureScreen (loop s i))).configInput = []) ∧
    (∀ (u : State) (ms : Nat),
      handleWaitingState u '#' ms =
        { u with prevState := u.currentState, currentState := .CONFIGURING }) := by
  have hf : draftFresh s := by
    obtain ⟨inputs, rfl⟩ := h
    exact run_fresh inputs setup (fun _ => ⟨rfl, rfl⟩) hidle
  refine ⟨hf, ?_, ?_⟩
  · intro i hd hk
    obtain ⟨a1, a2, a3, a4, -⟩ := loop_enter_configuring s i hidle hd hk
    have hflag : (loop s i).configFirstTime = true := a3.trans hf.2
    refine ⟨a1, a2.trans hf.1, hflag, a4, ?_⟩
    rw [(configPrompt_ensureScreen (loop s i)).2.2.2.2.2.2.2, hflag]
    rfl
  · intro u ms
    unfold handleWaitingState
    rw [if_neg (by decide), if_pos rfl]

/-- C21, instance: "45" is typed in the wizard and the wizard is cancelled
with `*`; the state is idle with the stale "45" still in the buffer variable.
Key `#` enters the wizard again at step `SET_COOK_TIME` with the first-entry
flag set, and the handler sees an empty buffer. -/
theorem C21_idle_has_fresh_draft_witness :
    idleMode (run setup [Input.uniform true '#' 0, Input.uniform true '4' 100,
      Input.uniform true '5' 200, Input.uniform true '*' 300]) ∧
    (run setup [Input.uniform true '#' 0, Input.uniform true '4' 100,
      Input.uniform true '5' 200, Input.uniform true '*' 300]).configInput = ['4', '5'] ∧
    (run setup [Input.uniform true '#' 0, Input.uniform true '4' 100,
      Input.uniform true '5' 200, Input.uniform true '*' 300]).configStep
      = .SET_COOK_TIME ∧
    (loop (run setup [Input.uniform true '#' 0, Input.uniform true '4' 100,
      Input.uniform true '5' 200, Input.uniform true '*' 300])
      (Input.uniform true '#' 400)).currentState = .CONFIGURING ∧
    (configPrompt (ensureScreen (loop (run setup [Input.uniform true '#' 0,
      Input.uniform true '4' 100, Input.uniform true '5' 200, Input.uniform true '*' 300])
      (Input.uniform true '#' 400)))).configInput = [] :=
  have hi : idleMode (run setup [Input.uniform true '#' 0, Input.uniform true '4' 100,
      Input.uniform true '5' 200, Input.uniform true '*' 300]) := Or.inl (by decide!)
  have h := C21_idle_has_fresh_draft _ (reachable_run setup reachable_setup
    [Input.uniform true '#' 0, Input.uniform true '4' 100,
      Input.uniform true '5' 200, Input.uniform true '*' 300]) hi
  ⟨hi, by decide!, h.1.1, (h.2.1 (Input.uniform true '#' 400) rfl rfl).1,
   (h.2.1 (Input.uniform true '#' 400) rfl rfl).2.2.2.2⟩

end Microondas
